import Mathlib

/-!
Verification of the mali-gralloc buffer allocator (format selection,
allocation-type resolution, geometry calculation, ION orchestration and
buffer-access validation) against its natural-language specification.

The C sources are shallowly embedded: pure functions become Lean functions
over `Nat`/`Int`/`Bool`, the format catalog becomes a concrete list, the
backing-memory arena (ION) is modelled as an allocation log, and machine
integers are modelled as unbounded naturals (the quantities involved are far
below 2^64 for all inputs considered; masking with 64-bit-wide constants is
written explicitly where the code relies on it).

Constants that live in headers not shipped with the sources
(`mali_gralloc_formats.h`, `gralloc_helper.h`, Android's `gralloc1.h`) are
modelled from the specification and the documented ABI; each such definition
carries a doc comment.
-/

namespace MaliGralloc

/-! ## Bit-level constants

Usage flags.  The private-usage flag layout is given in the source
(`mali_gralloc_usages.h`, Gralloc 1.0 section): the MALI private usages are
defined in terms of `GRALLOC1_PRODUCER_USAGE_PRIVATE_0..3`.
-/

/-- Modelled from the spec: Android `gralloc1.h` (external header) CPU read
usage mask, bits 0-3.  The source defines `GRALLOC_USAGE_SW_READ_MASK
0x0000000F`. -/
def GRALLOC_USAGE_SW_READ_MASK : Nat := 0x0000000F

/-- Modelled from the spec: CPU write usage mask, bits 4-7
(`GRALLOC_USAGE_SW_WRITE_MASK 0x000000F0` in the source). -/
def GRALLOC_USAGE_SW_WRITE_MASK : Nat := 0x000000F0

/-- Modelled from the spec: `GRALLOC1_CONSUMER_USAGE_CPU_READ_OFTEN`
(bits 1 and 2), aliased by the source as `GRALLOC_USAGE_SW_READ_OFTEN`. -/
def GRALLOC_USAGE_SW_READ_OFTEN : Nat := 0x6

/-- Modelled from the spec: `GRALLOC1_CONSUMER_USAGE_GPU_TEXTURE` (bit 8),
aliased as `GRALLOC_USAGE_HW_TEXTURE`. -/
def GRALLOC_USAGE_HW_TEXTURE : Nat := 0x100

/-- Modelled from the spec: `GRALLOC1_PRODUCER_USAGE_GPU_RENDER_TARGET`
(bit 9), aliased as `GRALLOC_USAGE_HW_RENDER`. -/
def GRALLOC_USAGE_HW_RENDER : Nat := 0x200

/-- `GRALLOC_USAGE_HW_2D 0x00000400` (given literally in the source). -/
def GRALLOC_USAGE_HW_2D : Nat := 0x400

/-- Modelled from the spec: `GRALLOC1_CONSUMER_USAGE_HWCOMPOSER` (bit 11),
aliased as `GRALLOC_USAGE_HW_COMPOSER`. -/
def GRALLOC_USAGE_HW_COMPOSER : Nat := 0x800

/-- Modelled from the spec: `GRALLOC1_CONSUMER_USAGE_CLIENT_TARGET` (bit 12),
aliased as `GRALLOC_USAGE_HW_FB`. -/
def GRALLOC_USAGE_HW_FB : Nat := 0x1000

/-- `GRALLOC_USAGE_EXTERNAL_DISP 0x00002000` (given literally in the source). -/
def GRALLOC_USAGE_EXTERNAL_DISP : Nat := 0x2000

/-- Modelled from the spec: `GRALLOC1_PRODUCER_USAGE_PROTECTED` (bit 14),
aliased as `GRALLOC_USAGE_PROTECTED`. -/
def GRALLOC_USAGE_PROTECTED : Nat := 0x4000

/-- Modelled from the spec: `GRALLOC1_CONSUMER_USAGE_VIDEO_ENCODER` (bit 16),
aliased as `GRALLOC_USAGE_HW_VIDEO_ENCODER`. -/
def GRALLOC_USAGE_HW_VIDEO_ENCODER : Nat := 0x10000

/-- Modelled from the spec: producer camera (bit 17) or consumer camera
(bit 18); the source defines `GRALLOC_USAGE_HW_CAMERA_MASK` as their union. -/
def GRALLOC_USAGE_HW_CAMERA_MASK : Nat := 0x60000

/-- Modelled from the spec: `GRALLOC1_PRODUCER_USAGE_PRIVATE_0` (bit 28). -/
def GRALLOC1_PRODUCER_USAGE_PRIVATE_0 : Nat := 0x10000000

/-- Modelled from the spec: `GRALLOC1_PRODUCER_USAGE_PRIVATE_1` (bit 29). -/
def GRALLOC1_PRODUCER_USAGE_PRIVATE_1 : Nat := 0x20000000

/-- Modelled from the spec: `GRALLOC1_PRODUCER_USAGE_PRIVATE_2` (bit 30). -/
def GRALLOC1_PRODUCER_USAGE_PRIVATE_2 : Nat := 0x40000000

/-- Modelled from the spec: `GRALLOC1_PRODUCER_USAGE_PRIVATE_3` (bit 31). -/
def GRALLOC1_PRODUCER_USAGE_PRIVATE_3 : Nat := 0x80000000

/-- `MALI_GRALLOC_USAGE_FRONTBUFFER = GRALLOC1_PRODUCER_USAGE_PRIVATE_0`
(source: `mali_gralloc_usages.h`). -/
def MALI_GRALLOC_USAGE_FRONTBUFFER : Nat := GRALLOC1_PRODUCER_USAGE_PRIVATE_0

/-- `MALI_GRALLOC_USAGE_NO_AFBC = (PRIVATE_1 | PRIVATE_2)`
(source: `mali_gralloc_usages.h`). -/
def MALI_GRALLOC_USAGE_NO_AFBC : Nat :=
  GRALLOC1_PRODUCER_USAGE_PRIVATE_1 ||| GRALLOC1_PRODUCER_USAGE_PRIVATE_2

/-- `MALI_GRALLOC_USAGE_AFBC_PADDING = PRIVATE_2`
(source: `mali_gralloc_usages.h`). -/
def MALI_GRALLOC_USAGE_AFBC_PADDING : Nat := GRALLOC1_PRODUCER_USAGE_PRIVATE_2

/-- `MALI_GRALLOC_USAGE_PRIVATE_FORMAT = PRIVATE_3`
(source: `mali_gralloc_usages.h`). -/
def MALI_GRALLOC_USAGE_PRIVATE_FORMAT : Nat := GRALLOC1_PRODUCER_USAGE_PRIVATE_3

/-- `GRALLOC_USAGE_PRIVATE_MASK (0xffff0000f0000000U)`
(source: `mali_gralloc_usages.h`). -/
def GRALLOC_USAGE_PRIVATE_MASK : Nat := 0xffff0000f0000000

/-! Internal-format modifier bits.  `mali_gralloc_formats.h` is not among the
shipped sources; the bit layout is modelled from the specification (base
format in the low 32 bits, AFBC modifiers in the high 32 bits, with basic /
split-block / wide-block / tiled-headers / extra-wide-block / double-body
modifiers) and from the literals `0x0000000100000000ULL` (AFBC basic) and
`0x0000000e00000000ULL` (split / wide / tiled) used in
`mali_gralloc_buffer_allocate`. -/

/-- Modelled from the spec: low 32 bits hold the base format
(`MALI_GRALLOC_INTFMT_FMT_MASK`). -/
def MALI_GRALLOC_INTFMT_FMT_MASK : Nat := 0xffffffff

/-- Modelled from the spec: high 32 bits hold the format modifiers
(`MALI_GRALLOC_INTFMT_EXT_MASK`). -/
def MALI_GRALLOC_INTFMT_EXT_MASK : Nat := 0xffffffff00000000

/-- Modelled from the spec: AFBC basic (16x16 superblocks) modifier, bit 32. -/
def MALI_GRALLOC_INTFMT_AFBC_BASIC : Nat := 0x100000000

/-- Modelled from the spec: AFBC split-block modifier, bit 33. -/
def MALI_GRALLOC_INTFMT_AFBC_SPLITBLK : Nat := 0x200000000

/-- Modelled from the spec: AFBC wide-block (32x8) modifier, bit 34. -/
def MALI_GRALLOC_INTFMT_AFBC_WIDEBLK : Nat := 0x400000000

/-- Modelled from the spec: AFBC tiled-headers modifier, bit 35. -/
def MALI_GRALLOC_INTFMT_AFBC_TILED_HEADERS : Nat := 0x800000000

/-- Modelled from the spec: AFBC extra-wide-block (64x4) modifier, bit 36. -/
def MALI_GRALLOC_INTFMT_AFBC_EXTRAWIDEBLK : Nat := 0x1000000000

/-- Modelled from the spec: AFBC double-body (front-buffer-safe) modifier,
bit 37. -/
def MALI_GRALLOC_INTFMT_AFBC_DOUBLE_BODY : Nat := 0x2000000000

/-- Modelled from the spec: union of the AFBC-selecting modifier bits
(`MALI_GRALLOC_INTFMT_AFBCENABLE_MASK`): basic, split-block, wide-block,
tiled-headers and extra-wide-block. -/
def MALI_GRALLOC_INTFMT_AFBCENABLE_MASK : Nat :=
  MALI_GRALLOC_INTFMT_AFBC_BASIC ||| MALI_GRALLOC_INTFMT_AFBC_SPLITBLK |||
  MALI_GRALLOC_INTFMT_AFBC_WIDEBLK ||| MALI_GRALLOC_INTFMT_AFBC_TILED_HEADERS |||
  MALI_GRALLOC_INTFMT_AFBC_EXTRAWIDEBLK

/-! Per-hardware-block capability bits (`mali_gralloc_format_caps.caps_mask`);
also from the absent `mali_gralloc_formats.h`, modelled from the
specification's capability list. -/

/-- Modelled from the spec: capability-options-present bit. -/
def MALI_GRALLOC_FORMAT_CAPABILITY_OPTIONS_PRESENT : Nat := 0x1

/-- Modelled from the spec: block supports AFBC basic. -/
def MALI_GRALLOC_FORMAT_CAPABILITY_AFBC_BASIC : Nat := 0x2

/-- Modelled from the spec: block supports AFBC split-block. -/
def MALI_GRALLOC_FORMAT_CAPABILITY_AFBC_SPLITBLK : Nat := 0x4

/-- Modelled from the spec: block supports AFBC wide-block. -/
def MALI_GRALLOC_FORMAT_CAPABILITY_AFBC_WIDEBLK : Nat := 0x8

/-- Modelled from the spec: wide-block AFBC disabled for YUV on this block. -/
def MALI_GRALLOC_FORMAT_CAPABILITY_AFBC_WIDEBLK_YUV_DISABLE : Nat := 0x10

/-- Modelled from the spec: block cannot read YUV AFBC. -/
def MALI_GRALLOC_FORMAT_CAPABILITY_AFBC_YUV_NOREAD : Nat := 0x20

/-- Modelled from the spec: block cannot write YUV AFBC. -/
def MALI_GRALLOC_FORMAT_CAPABILITY_AFBC_YUV_NOWRITE : Nat := 0x40

/-- Modelled from the spec: block supports AFBC tiled headers. -/
def MALI_GRALLOC_FORMAT_CAPABILITY_AFBC_TILED_HEADERS : Nat := 0x80

/-- Modelled from the spec: block supports front-buffer-safe (double-body)
AFBC. -/
def MALI_GRALLOC_FORMAT_CAPABILITY_AFBC_DOUBLE_BODY : Nat := 0x100

/-- Modelled from the spec: block supports reading multi-plane AFBC. -/
def MALI_GRALLOC_FORMAT_CAPABILITY_AFBC_MULTIPLANE_READ : Nat := 0x200

/-- Modelled from the spec: block supports the RGBA 10:10:10:2 pixel format. -/
def MALI_GRALLOC_FORMAT_CAPABILITY_PIXFMT_RGBA1010102 : Nat := 0x400

/-- Modelled from the spec: block supports the RGBA 16:16:16:16 pixel
format. -/
def MALI_GRALLOC_FORMAT_CAPABILITY_PIXFMT_RGBA16161616 : Nat := 0x800

/-- Modelled from the spec: union of capability bits that enable AFBC. -/
def MALI_GRALLOC_FORMAT_CAPABILITY_AFBCENABLE_MASK : Nat :=
  MALI_GRALLOC_FORMAT_CAPABILITY_AFBC_BASIC |||
  MALI_GRALLOC_FORMAT_CAPABILITY_AFBC_SPLITBLK |||
  MALI_GRALLOC_FORMAT_CAPABILITY_AFBC_WIDEBLK |||
  MALI_GRALLOC_FORMAT_CAPABILITY_AFBC_TILED_HEADERS

/-- All-ones 64-bit word; `~(0ULL)` in the source. -/
def UINT64_ALL : Nat := 0xffffffffffffffff

/-- C idiom `x &= ~mask` on `uint64_t`: clear the bits of `mask` (the
complement is taken within the 64-bit word). -/
def cClear (x mask : Nat) : Nat := x &&& (UINT64_ALL ^^^ mask)

/-! ## Pixel-format identifiers

The HAL constants come from Android's platform headers; the
`MALI_GRALLOC_FORMAT_INTERNAL_*` values come from the absent
`mali_gralloc_formats.h` (a private range above the HAL values).  Their
precise numeric values are irrelevant to every claim below; what matters is
that they are pairwise distinct, which holds for the modelled values. -/

/-- Modelled from the spec: `HAL_PIXEL_FORMAT_RGBA_8888`. -/
def MALI_GRALLOC_FORMAT_INTERNAL_RGBA_8888 : Nat := 1

/-- Modelled from the spec: `HAL_PIXEL_FORMAT_RGBX_8888`. -/
def MALI_GRALLOC_FORMAT_INTERNAL_RGBX_8888 : Nat := 2

/-- Modelled from the spec: `HAL_PIXEL_FORMAT_RGB_888`. -/
def MALI_GRALLOC_FORMAT_INTERNAL_RGB_888 : Nat := 3

/-- Modelled from the spec: `HAL_PIXEL_FORMAT_RGB_565`. -/
def MALI_GRALLOC_FORMAT_INTERNAL_RGB_565 : Nat := 4

/-- Modelled from the spec: `HAL_PIXEL_FORMAT_BGRA_8888`. -/
def MALI_GRALLOC_FORMAT_INTERNAL_BGRA_8888 : Nat := 5

/-- Modelled from the spec: `HAL_PIXEL_FORMAT_YCbCr_422_SP`. -/
def HAL_PIXEL_FORMAT_YCbCr_422_SP : Nat := 0x10

/-- Modelled from the spec: `HAL_PIXEL_FORMAT_YCrCb_420_SP`. -/
def HAL_PIXEL_FORMAT_YCrCb_420_SP : Nat := 0x11

/-- Modelled from the spec: `HAL_PIXEL_FORMAT_YCbCr_422_I`. -/
def HAL_PIXEL_FORMAT_YCbCr_422_I : Nat := 0x14

/-- Modelled from the spec: `HAL_PIXEL_FORMAT_RAW16`. -/
def MALI_GRALLOC_FORMAT_INTERNAL_RAW16 : Nat := 0x20

/-- Modelled from the spec: `HAL_PIXEL_FORMAT_BLOB`. -/
def MALI_GRALLOC_FORMAT_INTERNAL_BLOB : Nat := 0x21

/-- Modelled from the spec: `HAL_PIXEL_FORMAT_IMPLEMENTATION_DEFINED`. -/
def HAL_PIXEL_FORMAT_IMPLEMENTATION_DEFINED : Nat := 0x22

/-- Modelled from the spec: `HAL_PIXEL_FORMAT_YCbCr_420_888`. -/
def HAL_PIXEL_FORMAT_YCbCr_420_888 : Nat := 0x23

/-- Modelled from the spec: `HAL_PIXEL_FORMAT_RAW10`. -/
def MALI_GRALLOC_FORMAT_INTERNAL_RAW10 : Nat := 0x25

/-- Modelled from the spec: `HAL_PIXEL_FORMAT_RAW12`. -/
def MALI_GRALLOC_FORMAT_INTERNAL_RAW12 : Nat := 0x26

/-- Modelled from the spec: `HAL_PIXEL_FORMAT_YCbCr_422_888`. -/
def HAL_PIXEL_FORMAT_YCbCr_422_888 : Nat := 0x27

/-- Modelled from the spec: `HAL_PIXEL_FORMAT_YCbCr_444_888`. -/
def HAL_PIXEL_FORMAT_YCbCr_444_888 : Nat := 0x28

/-- Modelled from the spec: `HAL_PIXEL_FORMAT_RGBA_1010102`. -/
def MALI_GRALLOC_FORMAT_INTERNAL_RGBA_1010102 : Nat := 0x2B

/-- Modelled from the spec: `HAL_PIXEL_FORMAT_DEPTH_16` (SDK 28). -/
def MALI_GRALLOC_FORMAT_INTERNAL_DEPTH_16 : Nat := 0x30

/-- Modelled from the spec: `HAL_PIXEL_FORMAT_DEPTH_24` (SDK 28). -/
def MALI_GRALLOC_FORMAT_INTERNAL_DEPTH_24 : Nat := 0x31

/-- Modelled from the spec: `HAL_PIXEL_FORMAT_DEPTH_24_STENCIL_8` (SDK 28). -/
def MALI_GRALLOC_FORMAT_INTERNAL_DEPTH_24_STENCIL_8 : Nat := 0x32

/-- Modelled from the spec: `HAL_PIXEL_FORMAT_DEPTH_32F` (SDK 28). -/
def MALI_GRALLOC_FORMAT_INTERNAL_DEPTH_32F : Nat := 0x33

/-- Modelled from the spec: `HAL_PIXEL_FORMAT_DEPTH_32F_STENCIL_8` (SDK 28). -/
def MALI_GRALLOC_FORMAT_INTERNAL_DEPTH_32F_STENCIL_8 : Nat := 0x34

/-- Modelled from the spec: `HAL_PIXEL_FORMAT_STENCIL_8` (SDK 28). -/
def MALI_GRALLOC_FORMAT_INTERNAL_STENCIL_8 : Nat := 0x35

/-- Modelled from the spec: `HAL_PIXEL_FORMAT_Y8` (fourcc). -/
def MALI_GRALLOC_FORMAT_INTERNAL_Y8 : Nat := 0x20203859

/-- Modelled from the spec: `HAL_PIXEL_FORMAT_Y16` (fourcc). -/
def MALI_GRALLOC_FORMAT_INTERNAL_Y16 : Nat := 0x20363159

/-- Modelled from the spec: `HAL_PIXEL_FORMAT_YV12` (fourcc). -/
def MALI_GRALLOC_FORMAT_INTERNAL_YV12 : Nat := 0x32315659

/-- Modelled from the spec: private internal NV12 (private range). -/
def MALI_GRALLOC_FORMAT_INTERNAL_NV12 : Nat := 0x100

/-- Modelled from the spec: private internal NV21 (private range). -/
def MALI_GRALLOC_FORMAT_INTERNAL_NV21 : Nat := 0x101

/-- Modelled from the spec: private internal YUV422 8-bit (private range). -/
def MALI_GRALLOC_FORMAT_INTERNAL_YUV422_8BIT : Nat := 0x102

/-- Modelled from the spec: private internal Y0L2 (private range). -/
def MALI_GRALLOC_FORMAT_INTERNAL_Y0L2 : Nat := 0x103

/-- Modelled from the spec: private internal P010 (private range). -/
def MALI_GRALLOC_FORMAT_INTERNAL_P010 : Nat := 0x104

/-- Modelled from the spec: private internal P210 (private range). -/
def MALI_GRALLOC_FORMAT_INTERNAL_P210 : Nat := 0x105

/-- Modelled from the spec: private internal Y210 (private range). -/
def MALI_GRALLOC_FORMAT_INTERNAL_Y210 : Nat := 0x106

/-- Modelled from the spec: private internal Y410 (private range). -/
def MALI_GRALLOC_FORMAT_INTERNAL_Y410 : Nat := 0x107

/-- Modelled from the spec: private internal YUV420 8-bit AFBC-only
(private range). -/
def MALI_GRALLOC_FORMAT_INTERNAL_YUV420_8BIT_I : Nat := 0x108

/-- Modelled from the spec: private internal YUV420 10-bit AFBC-only
(private range). -/
def MALI_GRALLOC_FORMAT_INTERNAL_YUV420_10BIT_I : Nat := 0x109

/-- Modelled from the spec: private internal YUV444 10-bit AFBC-only
(private range). -/
def MALI_GRALLOC_FORMAT_INTERNAL_YUV444_10BIT_I : Nat := 0x10A

/-- Modelled from the spec: private internal RGBA 16:16:16:16
(private range). -/
def MALI_GRALLOC_FORMAT_INTERNAL_RGBA_16161616 : Nat := 0x10B

/-- Modelled from the spec: private internal YUV420_888 flexible alias
(private range). -/
def MALI_GRALLOC_FORMAT_INTERNAL_YUV420_888 : Nat := 0x10C

/-! ## Format catalog (`format_info.h` / the format table source file) -/

/-- Pixel-format catalog entry (`format_info_t`).  `bpp_afbc` and `bpp` are
per-plane bits-per-pixel lists of length `MAX_PLANES = 3`. -/
structure format_info_t where
  id : Nat
  npln : Nat
  ncmp : Nat
  bps : Nat
  bpp_afbc : List Nat
  bpp : List Nat
  hsub : Nat
  vsub : Nat
  tile_size : Nat
  has_alpha : Bool
  is_yuv : Bool
  afbc : Bool
  linear : Bool
  flex : Bool
  pwa : Nat
deriving Repr, DecidableEq

/-- The static format table (`formats[]`), transcribed entry by entry from the
source, for a build with `PLATFORM_SDK_VERSION >= 28` (all conditional
entries present).  `PWA_DEFAULT` is `pwa = 1`. -/
def formats : List format_info_t := [
  ⟨MALI_GRALLOC_FORMAT_INTERNAL_RGB_565,        1, 3, 6,  [16, 0, 0],  [16, 0, 0],  1, 1, 1, false, false, true,  true,  false, 1⟩,
  ⟨MALI_GRALLOC_FORMAT_INTERNAL_RGB_888,        1, 3, 8,  [24, 0, 0],  [24, 0, 0],  1, 1, 1, false, false, true,  true,  true,  1⟩,
  ⟨MALI_GRALLOC_FORMAT_INTERNAL_RGBA_8888,      1, 4, 8,  [32, 0, 0],  [32, 0, 0],  1, 1, 1, true,  false, true,  true,  true,  1⟩,
  ⟨MALI_GRALLOC_FORMAT_INTERNAL_BGRA_8888,      1, 4, 8,  [32, 0, 0],  [32, 0, 0],  1, 1, 1, true,  false, true,  true,  true,  1⟩,
  ⟨MALI_GRALLOC_FORMAT_INTERNAL_RGBX_8888,      1, 3, 8,  [32, 0, 0],  [32, 0, 0],  1, 1, 1, false, false, true,  true,  true,  1⟩,
  ⟨MALI_GRALLOC_FORMAT_INTERNAL_RGBA_1010102,   1, 4, 10, [32, 0, 0],  [32, 0, 0],  1, 1, 1, true,  false, true,  true,  false, 1⟩,
  ⟨MALI_GRALLOC_FORMAT_INTERNAL_RGBA_16161616,  1, 4, 16, [64, 0, 0],  [64, 0, 0],  1, 1, 1, true,  false, false, true,  true,  1⟩,
  ⟨MALI_GRALLOC_FORMAT_INTERNAL_Y8,             1, 1, 8,  [8, 0, 0],   [8, 0, 0],   2, 2, 1, false, true,  true,  true,  true,  16⟩,
  ⟨MALI_GRALLOC_FORMAT_INTERNAL_Y16,            1, 1, 16, [16, 0, 0],  [16, 0, 0],  2, 2, 1, false, true,  true,  true,  true,  16⟩,
  ⟨MALI_GRALLOC_FORMAT_INTERNAL_YUV420_8BIT_I,  1, 3, 8,  [12, 0, 0],  [0, 0, 0],   2, 2, 1, false, true,  true,  false, false, 1⟩,
  ⟨MALI_GRALLOC_FORMAT_INTERNAL_NV12,           2, 3, 8,  [8, 16, 0],  [8, 16, 0],  2, 2, 1, false, true,  true,  true,  true,  1⟩,
  ⟨MALI_GRALLOC_FORMAT_INTERNAL_NV21,           2, 3, 8,  [8, 16, 0],  [8, 16, 0],  2, 2, 1, false, true,  true,  true,  true,  1⟩,
  ⟨HAL_PIXEL_FORMAT_YCrCb_420_SP,               2, 3, 8,  [8, 16, 0],  [8, 16, 0],  2, 2, 1, false, true,  true,  true,  true,  1⟩,
  ⟨MALI_GRALLOC_FORMAT_INTERNAL_YV12,           3, 3, 8,  [8, 8, 8],   [8, 8, 8],   2, 2, 1, false, true,  true,  true,  true,  16⟩,
  ⟨HAL_PIXEL_FORMAT_YCbCr_422_I,                1, 3, 8,  [16, 0, 0],  [16, 0, 0],  2, 1, 1, false, true,  true,  true,  true,  1⟩,
  ⟨HAL_PIXEL_FORMAT_YCbCr_422_SP,               2, 3, 8,  [8, 16, 0],  [8, 16, 0],  2, 1, 1, false, true,  true,  true,  true,  1⟩,
  ⟨MALI_GRALLOC_FORMAT_INTERNAL_YUV420_10BIT_I, 1, 3, 10, [15, 0, 0],  [0, 0, 0],   2, 2, 1, false, true,  true,  false, false, 1⟩,
  ⟨MALI_GRALLOC_FORMAT_INTERNAL_Y0L2,           1, 4, 10, [16, 0, 0],  [16, 0, 0],  2, 2, 2, true,  true,  false, true,  false, 1⟩,
  ⟨MALI_GRALLOC_FORMAT_INTERNAL_P010,           2, 3, 10, [10, 20, 0], [16, 32, 0], 2, 2, 1, false, true,  true,  true,  true,  1⟩,
  ⟨MALI_GRALLOC_FORMAT_INTERNAL_Y210,           1, 3, 10, [20, 0, 0],  [32, 0, 0],  2, 1, 1, false, true,  true,  true,  true,  1⟩,
  ⟨MALI_GRALLOC_FORMAT_INTERNAL_P210,           2, 3, 10, [10, 20, 0], [16, 32, 0], 2, 1, 1, false, true,  true,  true,  true,  1⟩,
  ⟨MALI_GRALLOC_FORMAT_INTERNAL_YUV444_10BIT_I, 1, 3, 10, [30, 0, 0],  [0, 0, 0],   1, 1, 1, false, true,  true,  false, false, 1⟩,
  ⟨MALI_GRALLOC_FORMAT_INTERNAL_Y410,           1, 4, 10, [32, 0, 0],  [32, 0, 0],  1, 1, 1, true,  true,  false, true,  false, 1⟩,
  ⟨MALI_GRALLOC_FORMAT_INTERNAL_RAW16,          1, 1, 16, [16, 0, 0],  [16, 0, 0],  2, 2, 1, false, false, false, true,  false, 16⟩,
  ⟨MALI_GRALLOC_FORMAT_INTERNAL_RAW12,          1, 1, 12, [12, 0, 0],  [12, 0, 0],  4, 2, 1, false, false, false, true,  false, 4⟩,
  ⟨MALI_GRALLOC_FORMAT_INTERNAL_RAW10,          1, 1, 10, [10, 0, 0],  [10, 0, 0],  4, 2, 1, false, false, false, true,  false, 4⟩,
  ⟨MALI_GRALLOC_FORMAT_INTERNAL_BLOB,           1, 1, 8,  [8, 0, 0],   [8, 0, 0],   1, 1, 1, false, false, false, true,  false, 1⟩,
  ⟨MALI_GRALLOC_FORMAT_INTERNAL_DEPTH_16,       1, 1, 16, [0, 0, 0],   [16, 0, 0],  1, 1, 1, false, false, false, true,  false, 1⟩,
  ⟨MALI_GRALLOC_FORMAT_INTERNAL_DEPTH_24,       1, 1, 24, [0, 0, 0],   [24, 0, 0],  1, 1, 1, false, false, false, true,  false, 1⟩,
  ⟨MALI_GRALLOC_FORMAT_INTERNAL_DEPTH_24_STENCIL_8, 1, 2, 24, [0, 0, 0], [32, 0, 0], 1, 1, 1, false, false, false, true, false, 1⟩,
  ⟨MALI_GRALLOC_FORMAT_INTERNAL_DEPTH_32F,      1, 1, 32, [0, 0, 0],   [32, 0, 0],  1, 1, 1, false, false, false, true,  false, 1⟩,
  ⟨MALI_GRALLOC_FORMAT_INTERNAL_DEPTH_32F_STENCIL_8, 1, 2, 32, [0, 0, 0], [40, 0, 0], 1, 1, 1, false, false, false, true, false, 1⟩,
  ⟨MALI_GRALLOC_FORMAT_INTERNAL_STENCIL_8,      1, 1, 8,  [0, 0, 0],   [8, 0, 0],   1, 1, 1, false, false, false, true,  false, 1⟩]

/-- `num_formats = sizeof(formats)/sizeof(formats[0])`. -/
def num_formats : Nat := formats.length

/-- Value read by an out-of-bounds access `formats[num_formats]`; the C
program's behaviour there is undefined.  Total-indexing helper
`formats_read` makes the out-of-range branch explicit by returning `none`. -/
def formats_read (idx : Nat) : Option format_info_t := formats.get? idx

/-- Total variant of `formats[idx]` used inside function bodies; out-of-range
reads (undefined behaviour in C) yield an all-zero entry. -/
def formatsD (idx : Nat) : format_info_t :=
  (formats.get? idx).getD ⟨0, 0, 0, 0, [], [], 0, 0, 0, false, false, false, false, false, 0⟩

/-- `get_format_index` (format table source file): linear scan for the entry
whose `id` equals `(uint32_t)base_format`; `-1` when the scan runs off the
end of the table. -/
def get_format_index (base_format : Nat) : Int :=
  let format_idx := formats.findIdx (fun f => f.id == base_format &&& 0xffffffff)
  if num_formats ≤ format_idx then -1 else (format_idx : Int)

/-- `comparable_components` (`mali_gralloc_module.h`). -/
def comparable_components (old_format new_format : format_info_t) : Bool :=
  if new_format.ncmp == old_format.ncmp && new_format.bps == old_format.bps &&
      new_format.is_yuv == old_format.is_yuv then
    true
  else if old_format.is_yuv && old_format.has_alpha then
    if new_format.ncmp == 3 && new_format.is_yuv && !new_format.has_alpha then
      true
    else
      false
  else
    false

/-- `is_afbc_supported` (`mali_gralloc_module.h`): scan for the entry matching
`req_format_mapped & MALI_GRALLOC_INTFMT_FMT_MASK` (the scan index reaches
`num_formats` when nothing matches and the following table reads are then out
of bounds; `formatsD` stands in for those reads), then fall back to a
comparable AFBC-capable entry. -/
def is_afbc_supported (req_format_mapped : Nat) : Bool :=
  let format_idx := formats.findIdx
    (fun f => f.id == (req_format_mapped &&& MALI_GRALLOC_INTFMT_FMT_MASK))
  let format_idx :=
    if (formatsD format_idx).afbc = false then
      let i := formats.findIdx
        (fun f => comparable_components (formatsD format_idx) f && f.afbc)
      if i < num_formats then i else format_idx
    else format_idx
  (formatsD format_idx).afbc

/-- `is_android_yuv_format` (`mali_gralloc_module.h`): scan for the entry
whose `id` equals `req_format_mapped` (no mask applied), then read its
`is_yuv` flag.  As in `is_afbc_supported`, a failed scan leaves the index at
`num_formats` and the table read is out of bounds. -/
def is_android_yuv_format (req_format_mapped : Nat) : Bool :=
  (formatsD (formats.findIdx (fun f => f.id == req_format_mapped))).is_yuv

/-- `is_afbc_format` (`mali_gralloc_module.h`). -/
def is_afbc_format (internal_format : Nat) : Bool :=
  internal_format &&& MALI_GRALLOC_FORMAT_CAPABILITY_AFBCENABLE_MASK != 0

/-- `is_subsampled_yuv` (`mali_gralloc_module.h`). -/
def is_subsampled_yuv (base_format : Nat) : Bool :=
  base_format ∈ [MALI_GRALLOC_FORMAT_INTERNAL_YV12, HAL_PIXEL_FORMAT_YCrCb_420_SP,
    MALI_GRALLOC_FORMAT_INTERNAL_NV12, MALI_GRALLOC_FORMAT_INTERNAL_NV21,
    HAL_PIXEL_FORMAT_YCbCr_422_I, MALI_GRALLOC_FORMAT_INTERNAL_Y0L2,
    MALI_GRALLOC_FORMAT_INTERNAL_P010, MALI_GRALLOC_FORMAT_INTERNAL_P210,
    MALI_GRALLOC_FORMAT_INTERNAL_Y210, MALI_GRALLOC_FORMAT_INTERNAL_YUV422_8BIT,
    MALI_GRALLOC_FORMAT_INTERNAL_YUV420_888, MALI_GRALLOC_FORMAT_INTERNAL_YUV420_8BIT_I,
    MALI_GRALLOC_FORMAT_INTERNAL_YUV420_10BIT_I, HAL_PIXEL_FORMAT_YCbCr_422_SP]

/-- `is_depth_or_stencil_format` (`mali_gralloc_module.h`, SDK 28 build). -/
def is_depth_or_stencil_format (req_format : Nat) : Bool :=
  req_format ∈ [MALI_GRALLOC_FORMAT_INTERNAL_DEPTH_16, MALI_GRALLOC_FORMAT_INTERNAL_DEPTH_24,
    MALI_GRALLOC_FORMAT_INTERNAL_DEPTH_24_STENCIL_8, MALI_GRALLOC_FORMAT_INTERNAL_DEPTH_32F,
    MALI_GRALLOC_FORMAT_INTERNAL_DEPTH_32F_STENCIL_8, MALI_GRALLOC_FORMAT_INTERNAL_STENCIL_8]

/-! ## Alignment and arithmetic helpers (geometry source file) -/

/-- Modelled from the spec: `GRALLOC_ALIGN(value, base)` from the absent
`gralloc_helper.h` rounds `value` up to the next multiple of `base`
(specification 4.5: "ceil to lcm(...)", "aligned up to lcm(...)"); a zero
base leaves the value unchanged. -/
def GRALLOC_ALIGN (value base : Nat) : Nat :=
  if base = 0 then value else (value + base - 1) / base * base

/-- Euclidean loop of `gcd` (geometry source file): `while (b != 0)`. -/
def gcd_loop : Nat → Nat → Nat
  | a, 0 => a
  | a, b + 1 => gcd_loop (b + 1) (a % (b + 1))
termination_by _ b => b
decreasing_by exact Nat.mod_lt _ (Nat.succ_pos b)

/-- `gcd` (geometry source file): equal arguments short-circuit, otherwise the
larger argument is placed first and the Euclidean loop runs. -/
def gcd (a b : Nat) : Nat :=
  if a = b then a
  else if a < b then gcd_loop b a
  else gcd_loop a b

/-- `lcm` (geometry source file): `(a*b)/gcd(a,b)` for non-zero arguments,
otherwise `max(a, b)`. -/
def lcm (a b : Nat) : Nat :=
  if a ≠ 0 ∧ b ≠ 0 then a * b / gcd a b
  else max a b

/-- Result of `update_yv12_stride`: the written chroma/luma byte stride
together with the conditions of the two `assert`s in the chroma branch
(`none` in the luma branch, where no assertion executes).  `assert_mult16`
records the value of the C expression `*byte_stride & 15 == 0`, which parses
as `*byte_stride & (15 == 0)` — the equality binds tighter than the bitwise
AND -- so the asserted condition is the AND of the stride with the integer
value of `15 == 0`. -/
structure yv12_stride_t where
  byte_stride : Nat
  assert_aligned : Option Bool
  assert_mult16 : Option Nat
deriving Repr, DecidableEq

/-- `update_yv12_stride` (geometry source file).  Plane 0: align the luma
stride to `2 * stride_align`.  Chroma planes: halve the luma stride and
evaluate the two assertion conditions. -/
def update_yv12_stride (plane luma_stride stride_align : Nat) : yv12_stride_t :=
  if plane = 0 then
    { byte_stride := GRALLOC_ALIGN luma_stride (2 * stride_align)
      assert_aligned := none
      assert_mult16 := none }
  else
    let byte_stride := luma_stride / 2
    { byte_stride := byte_stride
      assert_aligned := some (byte_stride == GRALLOC_ALIGN byte_stride stride_align)
      assert_mult16 := some (byte_stride &&& (if (15 : Nat) = 0 then 1 else 0)) }

/-! ## Claim C3: the second YV12 chroma-stride assertion is vacuous -/

/-- C3: for every chroma plane (`plane > 0`) and every luma stride and stride
alignment, the condition of the second assertion in `update_yv12_stride`,
written `*byte_stride & 15 == 0` in the source, parses as
`*byte_stride & (15 == 0)` and therefore evaluates to `0` (false) for every
byte stride; the assertion never checks 16-byte alignment of the chroma
stride. -/
theorem update_yv12_stride_assert2_always_zero
    (plane luma_stride stride_align : Nat) (h : 0 < plane) :
    (update_yv12_stride plane luma_stride stride_align).assert_mult16 = some 0 := by
  unfold update_yv12_stride
  rw [if_neg (Nat.pos_iff_ne_zero.mp h)]
  simp

/-- Witness for C3 at plane 1, luma stride 1920, stride alignment 64. -/
theorem update_yv12_stride_assert2_witness :
    0 < 1 ∧ (update_yv12_stride 1 1920 64).assert_mult16 = some 0 :=
  ⟨by decide, update_yv12_stride_assert2_always_zero 1 1920 64 (by decide)⟩

/-! ## Claim C9: the format-table scans and out-of-bounds reads -/

/-- C9 counterexample: the claim asserts the linear scans of
`is_android_yuv_format` / `is_afbc_supported` stop strictly below
`num_formats` for every format argument.  For format identifier `0` (which
matches no catalog entry) the scan index equals `num_formats` and the
subsequent `formats[format_idx]` read is out of bounds (`formats_read`
returns `none`). -/
theorem format_scan_runs_off_table :
    formats.findIdx (fun f => f.id == 0) = num_formats ∧
    formats_read (formats.findIdx (fun f => f.id == 0)) = none := by
  constructor <;> decide

/-- C9 (amended): each scan stops strictly below `num_formats` exactly when
the (masked) identifier matches a catalog entry; out-of-bounds reads occur
exactly at indices at or beyond `num_formats`. -/
theorem format_scan_in_bounds_iff (f : Nat) :
    (formats.findIdx (fun e => e.id == f) < num_formats ↔ ∃ e ∈ formats, e.id = f) ∧
    (formats.findIdx (fun e => e.id == (f &&& MALI_GRALLOC_INTFMT_FMT_MASK)) < num_formats ↔
      ∃ e ∈ formats, e.id = f &&& MALI_GRALLOC_INTFMT_FMT_MASK) ∧
    (∀ idx, formats_read idx = none ↔ num_formats ≤ idx) := by
  refine ⟨?_, ?_, ?_⟩
  · rw [num_formats, List.findIdx_lt_length]
    simp
  · rw [num_formats, List.findIdx_lt_length]
    simp
  · intro idx
    rw [formats_read, List.get?_eq_none]
    rfl

/-! ## Small bit-manipulation lemmas used throughout -/

theorem land_ne_zero_of_testBit {a m : Nat} (k : Nat)
    (ha : a.testBit k = true) (hm : m.testBit k = true) : a &&& m ≠ 0 := by
  intro h
  have h2 := congrArg (fun x => Nat.testBit x k) h
  simp only [Nat.testBit_land, Nat.zero_testBit, ha, hm, Bool.and_self] at h2
  exact absurd h2 (by decide)

theorem land_eq_zero_of_testBit {a m : Nat}
    (h : ∀ i, a.testBit i = true → m.testBit i = false) : a &&& m = 0 := by
  apply Nat.eq_of_testBit_eq
  intro i
  simp only [Nat.testBit_land, Nat.zero_testBit]
  cases ha : a.testBit i with
  | false => rfl
  | true => simp [h i ha]

theorem testBit_of_land_two_pow {a k : Nat} (h : a &&& 2 ^ k ≠ 0) :
    a.testBit k = true := by
  by_contra hc
  apply h
  apply land_eq_zero_of_testBit
  intro i hi
  rw [Nat.testBit_two_pow]
  rcases eq_or_ne k i with rfl | hne
  · exact absurd hi (by simp [hc])
  · simp [hne]

theorem testBit_lor_true_left {a b : Nat} (k : Nat) (ha : a.testBit k = true) :
    (a ||| b).testBit k = true := by
  simp [Nat.testBit_lor, ha]

theorem testBit_land_false_right {a m : Nat} (k : Nat) (hm : m.testBit k = false) :
    (a &&& m).testBit k = false := by
  simp [Nat.testBit_land, hm]

theorem testBit_land_of_both {a m : Nat} (k : Nat) (ha : a.testBit k = true)
    (hm : m.testBit k = true) : (a &&& m).testBit k = true := by
  simp [Nat.testBit_land, ha, hm]

/-! ## Allocation type (`alloc_type_t`, geometry source file) -/

/-- `AllocBaseType`: the AFBC superblock type. -/
inductive AllocBaseType where
  | UNCOMPRESSED
  | AFBC
  | AFBC_WIDEBLK
  | AFBC_EXTRAWIDEBLK
deriving Repr, DecidableEq

/-- `rect_t` (`format_info.h`). -/
structure rect_t where
  width : Nat
  height : Nat
deriving Repr, DecidableEq

/-- `alloc_type_t` (geometry source file). -/
structure alloc_type_t where
  primary_type : AllocBaseType
  is_multi_plane : Bool
  is_tiled : Bool
  is_padded : Bool
  is_frontbuffer_safe : Bool
deriving Repr, DecidableEq

/-- `alloc_type_t::is_afbc()`. -/
def alloc_type_t.is_afbc (t : alloc_type_t) : Bool :=
  t.primary_type ≠ AllocBaseType.UNCOMPRESSED

/-- `get_afbc_sb_size(AllocBaseType)` (geometry source file). -/
def get_afbc_sb_size_base : AllocBaseType → rect_t
  | .UNCOMPRESSED => ⟨0, 0⟩
  | .AFBC => ⟨16, 16⟩
  | .AFBC_WIDEBLK => ⟨32, 8⟩
  | .AFBC_EXTRAWIDEBLK => ⟨64, 4⟩

/-- `get_afbc_sb_size(alloc_type_t, plane)` (geometry source file): chroma
planes of multi-plane AFBC always use extra-wide superblocks. -/
def get_afbc_sb_size (alloc_type : alloc_type_t) (plane : Nat) : rect_t :=
  if 0 < plane ∧ alloc_type.is_afbc ∧ alloc_type.is_multi_plane then
    get_afbc_sb_size_base .AFBC_EXTRAWIDEBLK
  else
    get_afbc_sb_size_base alloc_type.primary_type

/-- `get_alloc_type` (geometry source file).  `none` models `return false`
(rejection); `some` carries the resolved allocation type. -/
def get_alloc_type (internal_format format_idx usage : Nat) : Option alloc_type_t :=
  let t : alloc_type_t :=
    { primary_type := .UNCOMPRESSED
      is_multi_plane := 1 < (formatsD format_idx).npln
      is_tiled := false
      is_padded := false
      is_frontbuffer_safe := false }
  if internal_format &&& MALI_GRALLOC_INTFMT_AFBCENABLE_MASK ≠ 0 then
    let t := { t with primary_type :=
      if internal_format &&& MALI_GRALLOC_INTFMT_AFBC_WIDEBLK ≠ 0 then .AFBC_WIDEBLK
      else if internal_format &&& MALI_GRALLOC_INTFMT_AFBC_EXTRAWIDEBLK ≠ 0 then .AFBC_EXTRAWIDEBLK
      else .AFBC }
    let t :=
      if internal_format &&& MALI_GRALLOC_INTFMT_AFBC_TILED_HEADERS ≠ 0 then
        let t := { t with is_tiled := true }
        let t :=
          if 1 < (formatsD format_idx).npln ∧
              internal_format &&& MALI_GRALLOC_INTFMT_AFBC_EXTRAWIDEBLK = 0 then
            -- warning logged: extra-wide must be signalled for multi-plane
            { t with is_multi_plane := false }
          else t
        if internal_format &&& MALI_GRALLOC_INTFMT_AFBC_DOUBLE_BODY ≠ 0 then
          { t with is_frontbuffer_safe := true }
        else t
      else
        -- warning logged when npln > 1: multi-plane unsupported without tiling
        { t with is_multi_plane := false }
    if internal_format &&& MALI_GRALLOC_INTFMT_AFBC_EXTRAWIDEBLK ≠ 0 ∧ t.is_tiled = false then
      none  -- headers must be tiled for extra-wide
    else if (formatsD format_idx).npln = 1 ∧
        internal_format &&& MALI_GRALLOC_INTFMT_AFBC_WIDEBLK ≠ 0 ∧
        internal_format &&& MALI_GRALLOC_INTFMT_AFBC_EXTRAWIDEBLK ≠ 0 then
      none  -- wide + extra-wide implies multi-plane: invalid for single-plane
    else if usage &&& MALI_GRALLOC_USAGE_AFBC_PADDING ≠ 0 then
      some { t with is_padded := true }
    else
      some t
  else
    some t

/-! ## Claim C4: extra-wide block without tiled headers is rejected -/

/-- C4: whenever the extra-wide-block modifier bit is set but the
tiled-headers modifier bit is not, `get_alloc_type` rejects the allocation
(returns `none`, the embedding of `return false`), for every format table
index and usage. -/
theorem get_alloc_type_extrawide_without_tiled_rejected
    (internal_format format_idx usage : Nat)
    (hew : internal_format &&& MALI_GRALLOC_INTFMT_AFBC_EXTRAWIDEBLK ≠ 0)
    (hth : internal_format &&& MALI_GRALLOC_INTFMT_AFBC_TILED_HEADERS = 0) :
    get_alloc_type internal_format format_idx usage = none := by
  have hbit : internal_format.testBit 36 = true := testBit_of_land_two_pow hew
  have hmask : internal_format &&& MALI_GRALLOC_INTFMT_AFBCENABLE_MASK ≠ 0 :=
    land_ne_zero_of_testBit 36 hbit (by decide)
  simp only [get_alloc_type, hth, hmask, hew, ne_eq, not_false_eq_true, if_true,
    reduceIte, not_true_eq_false, and_true, true_and, and_false, false_and, if_false]

/-- Witness for C4: NV12 with extra-wide-block (and AFBC basic) but no tiled
headers is rejected. -/
theorem get_alloc_type_extrawide_without_tiled_witness :
    ((0x100 + 0x1100000000) &&& MALI_GRALLOC_INTFMT_AFBC_EXTRAWIDEBLK ≠ 0) ∧
    ((0x100 + 0x1100000000) &&& MALI_GRALLOC_INTFMT_AFBC_TILED_HEADERS = 0) ∧
    get_alloc_type (0x100 + 0x1100000000) 10 0 = none :=
  ⟨by decide, by decide,
    get_alloc_type_extrawide_without_tiled_rejected (0x100 + 0x1100000000) 10 0
      (by decide) (by decide)⟩

/-! ## Producer and consumer classification (`mali_gralloc_module.h`) -/

/-- `mali_gralloc_producer_type`. -/
inductive mali_gralloc_producer_type where
  | CPU
  | GPU_OR_DISPLAY
  | GPU
  | CAMERA
  | VIDEO_DECODER
  | DISPLAY
  | DISPLAY_AEU
  | UNKNOWN
deriving Repr, DecidableEq

/-- `mali_gralloc_consumer_type`. -/
inductive mali_gralloc_consumer_type where
  | CPU
  | GPU_OR_DISPLAY
  | GPU_EXCL
  | VIDEO_ENCODER
  | DISPLAY_EXCL
  | UNKNOWN
deriving Repr, DecidableEq

/-- The four cached `mali_gralloc_format_caps` globals (`dpu_runtime_caps`,
`gpu_runtime_caps`, `vpu_runtime_caps`, `cam_runtime_caps`), resolved once by
`determine_format_capabilities` and then read-only; the embedding passes them
explicitly.  Each field is the block's `caps_mask`. -/
structure runtime_caps_t where
  dpu : Nat
  gpu : Nat
  vpu : Nat
  cam : Nat
deriving Repr, DecidableEq

/-- `determine_producer` (`mali_gralloc_module.h`): returns the C function's
boolean result together with the produced role. -/
def determine_producer (usage : Nat) : Bool × mali_gralloc_producer_type :=
  if usage &&& (GRALLOC_USAGE_SW_READ_MASK ||| GRALLOC_USAGE_SW_WRITE_MASK) ≠ 0 then
    (false, .CPU)
  else if usage &&& (GRALLOC_USAGE_HW_RENDER ||| GRALLOC_USAGE_HW_COMPOSER |||
      GRALLOC_USAGE_HW_VIDEO_ENCODER) =
      (GRALLOC_USAGE_HW_RENDER ||| GRALLOC_USAGE_HW_COMPOSER |||
      GRALLOC_USAGE_HW_VIDEO_ENCODER) then
    (true, .GPU_OR_DISPLAY)
  else if usage &&& GRALLOC_USAGE_HW_RENDER ≠ 0 then
    (true, .GPU)
  else if usage &&& GRALLOC_USAGE_HW_CAMERA_MASK ≠ 0 then
    (true, .CAMERA)
  else if usage &&& (GRALLOC_USAGE_HW_TEXTURE ||| GRALLOC_USAGE_HW_COMPOSER |||
      GRALLOC_USAGE_EXTERNAL_DISP) =
      (GRALLOC_USAGE_HW_TEXTURE ||| GRALLOC_USAGE_HW_COMPOSER |||
      GRALLOC_USAGE_EXTERNAL_DISP) then
    (true, .VIDEO_DECODER)
  else if usage &&& (GRALLOC_USAGE_HW_COMPOSER ||| GRALLOC_USAGE_HW_VIDEO_ENCODER) =
      (GRALLOC_USAGE_HW_COMPOSER ||| GRALLOC_USAGE_HW_VIDEO_ENCODER) then
    (true, .DISPLAY)
  else if usage = GRALLOC_USAGE_HW_COMPOSER then
    (true, .DISPLAY_AEU)
  else
    (true, .UNKNOWN)

/-- `determine_consumer` (`mali_gralloc_module.h`); the GPU-or-display branch
consults the cached DPU capabilities. -/
def determine_consumer (caps : runtime_caps_t) (usage : Nat) :
    Bool × mali_gralloc_consumer_type :=
  if usage &&& (GRALLOC_USAGE_SW_READ_MASK ||| GRALLOC_USAGE_SW_WRITE_MASK) ≠ 0 then
    (false, .CPU)
  else if usage &&& GRALLOC_USAGE_HW_FB ≠ 0 then
    (true, .GPU_OR_DISPLAY)
  else if usage &&& GRALLOC_USAGE_HW_VIDEO_ENCODER ≠ 0 then
    (true, .VIDEO_ENCODER)
  else if usage &&& (GRALLOC_USAGE_HW_TEXTURE ||| GRALLOC_USAGE_HW_COMPOSER) =
      (GRALLOC_USAGE_HW_TEXTURE ||| GRALLOC_USAGE_HW_COMPOSER) ∧
      caps.dpu &&& MALI_GRALLOC_FORMAT_CAPABILITY_OPTIONS_PRESENT ≠ 0 then
    (true, .GPU_OR_DISPLAY)
  else if usage &&& GRALLOC_USAGE_HW_TEXTURE ≠ 0 then
    (true, .GPU_EXCL)
  else if usage = GRALLOC_USAGE_HW_COMPOSER then
    (true, .DISPLAY_EXCL)
  else
    (true, .UNKNOWN)

/-! ## Single-plane AFBC fallback (`mali_gralloc_module.h`) -/

/-- `convert_yuv_to_afbc_single_plane`: first component is the (possibly
updated) format index, second is the C return value. -/
def convert_yuv_to_afbc_single_plane (format_idx : Nat) : Nat × Bool :=
  let fmt := formatsD format_idx
  if fmt.is_yuv = false then
    (format_idx, false)
  else if fmt.npln = 1 ∧ fmt.afbc = true then
    (format_idx, true)
  else
    match formats.findIdx? (fun g =>
        g.npln == 1 && g.afbc && g.bps == fmt.bps && g.hsub == fmt.hsub &&
        g.vsub == fmt.vsub && g.is_yuv == fmt.is_yuv &&
        comparable_components fmt g) with
    | some i => (i, true)
    | none => (format_idx, false)

/-- `afbc_format_fallback` (`mali_gralloc_module.h`): first component is the
final format index, second the returned boolean.  On the conversion-failure
path the source declares a fresh local `bool res = false;` which shadows the
function-level `res`; the function-level value, initialised `true`, is what
is returned, so the failure assignment has no effect on the result. -/
def afbc_format_fallback (caps : runtime_caps_t) (format_idx usage : Nat)
    (force : Bool) : Nat × Bool :=
  let res := true
  let producer := (determine_producer usage).2
  let consumer := (determine_consumer caps usage).2
  let producer_mp_support := producer = .UNKNOWN
  let consumer_mp_support := consumer = .UNKNOWN ∨ consumer = .GPU_EXCL
  let is_multiplane_supported :=
    producer_mp_support ∧ consumer_mp_support ∧
      caps.gpu &&& MALI_GRALLOC_FORMAT_CAPABILITY_AFBC_MULTIPLANE_READ ≠ 0
  if force = true ∨ ¬ is_multiplane_supported then
    if 1 < (formatsD format_idx).npln ∨ (formatsD format_idx).afbc = false then
      match convert_yuv_to_afbc_single_plane format_idx with
      | (idx, true) => (idx, res)   -- success (warning logged when idx changed)
      | (idx, false) => (idx, res)  -- failure logged; shadowed local set to false
    else
      (format_idx, res)
  else
    (format_idx, res)

/-! ## Claim C8: `afbc_format_fallback` always reports success -/

/-- C8: `afbc_format_fallback` returns `true` on every call — for every
capability state, format index, usage and force flag — because the failure
assignment targets a shadowing local variable; the documented failure result
`false` is never returned. -/
theorem afbc_format_fallback_always_true (caps : runtime_caps_t)
    (format_idx usage : Nat) (force : Bool) :
    (afbc_format_fallback caps format_idx usage force).2 = true := by
  simp only [afbc_format_fallback]
  repeat' split
  all_goals rfl

/-! ## Format selection (`mali_gralloc_select_format` and helpers) -/

/-- `mali_gralloc_format_type`. -/
inductive mali_gralloc_format_type where
  | USAGE
  | INTERNAL
deriving Repr, DecidableEq

/-- `map_flex_formats` (`mali_gralloc_module.h`): map the Android flexible
formats to internal base formats and convert the duplicate
`YUV422_8BIT` format (the 422_888 / 444_888 branches are empty). -/
def map_flex_formats (req_format : Nat) : Nat :=
  let req_format :=
    if req_format = HAL_PIXEL_FORMAT_IMPLEMENTATION_DEFINED ∨
        req_format = HAL_PIXEL_FORMAT_YCbCr_420_888 then
      MALI_GRALLOC_FORMAT_INTERNAL_NV12
    else req_format
  if req_format = MALI_GRALLOC_FORMAT_INTERNAL_YUV422_8BIT then
    HAL_PIXEL_FORMAT_YCbCr_422_I
  else req_format

/-- Modelled from the spec: `GRALLOC_PRIVATE_FORMAT_UNWRAP` from the absent
`mali_gralloc_formats.h`.  The private-format escape packs AFBC modifier bits
into the upper bits of the 32-bit requested format; unwrapping moves them to
the 64-bit modifier field and keeps the low bits as the base format. -/
def GRALLOC_PRIVATE_FORMAT_UNWRAP (x : Nat) : Nat :=
  ((x >>> 21) <<< 32) ||| (x &&& 0x1fffff)

/-- Base formats accepted by the validation switch in
`decode_internal_format` (SDK 28 build: all listed cases present). -/
def decode_valid_bases : List Nat :=
  [MALI_GRALLOC_FORMAT_INTERNAL_RGBA_8888, MALI_GRALLOC_FORMAT_INTERNAL_RGBX_8888,
   MALI_GRALLOC_FORMAT_INTERNAL_RGB_888, MALI_GRALLOC_FORMAT_INTERNAL_RGB_565,
   MALI_GRALLOC_FORMAT_INTERNAL_BGRA_8888, MALI_GRALLOC_FORMAT_INTERNAL_RGBA_1010102,
   MALI_GRALLOC_FORMAT_INTERNAL_RGBA_16161616, MALI_GRALLOC_FORMAT_INTERNAL_YV12,
   MALI_GRALLOC_FORMAT_INTERNAL_Y8, MALI_GRALLOC_FORMAT_INTERNAL_Y16,
   MALI_GRALLOC_FORMAT_INTERNAL_RAW16, MALI_GRALLOC_FORMAT_INTERNAL_RAW12,
   MALI_GRALLOC_FORMAT_INTERNAL_RAW10, MALI_GRALLOC_FORMAT_INTERNAL_BLOB,
   MALI_GRALLOC_FORMAT_INTERNAL_NV12, MALI_GRALLOC_FORMAT_INTERNAL_NV21,
   MALI_GRALLOC_FORMAT_INTERNAL_YUV422_8BIT, MALI_GRALLOC_FORMAT_INTERNAL_Y0L2,
   MALI_GRALLOC_FORMAT_INTERNAL_P010, MALI_GRALLOC_FORMAT_INTERNAL_P210,
   MALI_GRALLOC_FORMAT_INTERNAL_Y210, MALI_GRALLOC_FORMAT_INTERNAL_Y410,
   HAL_PIXEL_FORMAT_YCbCr_422_I, HAL_PIXEL_FORMAT_YCrCb_420_SP,
   HAL_PIXEL_FORMAT_YCbCr_422_SP, MALI_GRALLOC_FORMAT_INTERNAL_YUV420_8BIT_I,
   MALI_GRALLOC_FORMAT_INTERNAL_YUV420_10BIT_I, MALI_GRALLOC_FORMAT_INTERNAL_YUV444_10BIT_I,
   MALI_GRALLOC_FORMAT_INTERNAL_DEPTH_16, MALI_GRALLOC_FORMAT_INTERNAL_DEPTH_24,
   MALI_GRALLOC_FORMAT_INTERNAL_DEPTH_24_STENCIL_8, MALI_GRALLOC_FORMAT_INTERNAL_DEPTH_32F,
   MALI_GRALLOC_FORMAT_INTERNAL_DEPTH_32F_STENCIL_8, MALI_GRALLOC_FORMAT_INTERNAL_STENCIL_8]

/-- `decode_internal_format` (`mali_gralloc_module.h`): unwrap (usage type) or
pass through (internal type), remap flexible base formats, and validate the
base against the known list (unknown base: result 0). -/
def decode_internal_format (req_format : Nat) (t : mali_gralloc_format_type) : Nat :=
  let internal_format :=
    match t with
    | .USAGE => GRALLOC_PRIVATE_FORMAT_UNWRAP (req_format &&& 0xffffffff)
    | .INTERNAL => req_format
  let base_format := internal_format &&& MALI_GRALLOC_INTFMT_FMT_MASK
  let mapped_base_format := map_flex_formats (base_format &&& 0xffffffff)
  if mapped_base_format ∈ decode_valid_bases then
    if mapped_base_format ≠ base_format then
      (internal_format &&& MALI_GRALLOC_INTFMT_EXT_MASK) ||| mapped_base_format
    else internal_format
  else 0

/-- `apply_gpu_producer_limitations` (`mali_gralloc_module.h`). -/
def apply_gpu_producer_limitations (caps : runtime_caps_t)
    (req_format_mapped producer_runtime_mask : Nat) : Nat :=
  if is_android_yuv_format req_format_mapped then
    if caps.gpu &&& MALI_GRALLOC_FORMAT_CAPABILITY_AFBC_YUV_NOWRITE ≠ 0 then
      cClear producer_runtime_mask MALI_GRALLOC_FORMAT_CAPABILITY_AFBCENABLE_MASK
    else
      cClear producer_runtime_mask (MALI_GRALLOC_FORMAT_CAPABILITY_AFBC_SPLITBLK |||
        MALI_GRALLOC_FORMAT_CAPABILITY_AFBC_WIDEBLK)
  else producer_runtime_mask

/-- `apply_video_consumer_limitations` (`mali_gralloc_module.h`). -/
def apply_video_consumer_limitations (caps : runtime_caps_t)
    (req_format_mapped consumer_runtime_mask : Nat) : Nat :=
  if is_android_yuv_format req_format_mapped then
    if caps.vpu &&& MALI_GRALLOC_FORMAT_CAPABILITY_AFBC_YUV_NOREAD ≠ 0 then
      cClear consumer_runtime_mask MALI_GRALLOC_FORMAT_CAPABILITY_AFBCENABLE_MASK
    else consumer_runtime_mask
  else
    cClear consumer_runtime_mask MALI_GRALLOC_FORMAT_CAPABILITY_AFBCENABLE_MASK

/-- `apply_display_consumer_limitations` (`mali_gralloc_module.h`).  On this
build `MALI_DISPLAY_VERSION` is neither 550 nor 650, so the
buffer-size-threshold branch is compiled out and `afbc_allowed` is always
true; `buffer_size` is unused (`(void)buffer_size`). -/
def apply_display_consumer_limitations
    (req_format_mapped buffer_size display_consumer_runtime_mask : Nat) : Nat :=
  let _unused := buffer_size
  if is_android_yuv_format req_format_mapped then
    cClear (cClear display_consumer_runtime_mask MALI_GRALLOC_FORMAT_CAPABILITY_AFBC_SPLITBLK)
      MALI_GRALLOC_FORMAT_CAPABILITY_AFBC_WIDEBLK
  else if req_format_mapped = MALI_GRALLOC_FORMAT_INTERNAL_RGB_565 then
    cClear display_consumer_runtime_mask MALI_GRALLOC_FORMAT_CAPABILITY_AFBC_SPLITBLK
  else display_consumer_runtime_mask

/-- C pattern `internal_format |= bit` guarded by a condition. -/
def orWhen (c : Prop) [Decidable c] (bit x : Nat) : Nat :=
  if c then x ||| bit else x

/-- `determine_best_format` (`mali_gralloc_module.h`), for a build with
`PLATFORM_SDK_VERSION >= 26` (the RGBA-1010102/16161616 rejections are
compiled in). -/
def determine_best_format (caps : runtime_caps_t) (req_format : Nat)
    (producer : mali_gralloc_producer_type) (consumer : mali_gralloc_consumer_type)
    (producer_runtime_mask consumer_runtime_mask : Nat) : Nat :=
  let internal_format := req_format
  if producer = .UNKNOWN ∧ consumer = .UNKNOWN then
    internal_format
  else if producer = .UNKNOWN ∨ (producer = .GPU ∧
      caps.gpu &&& MALI_GRALLOC_FORMAT_CAPABILITY_OPTIONS_PRESENT ≠ 0) then
    let gpu_mask := caps.gpu &&& producer_runtime_mask
    if consumer = .GPU_OR_DISPLAY then
      let gpu_mask := gpu_mask &&& consumer_runtime_mask
      let dpu_mask := caps.dpu &&& consumer_runtime_mask
      let x := orWhen (gpu_mask &&& MALI_GRALLOC_FORMAT_CAPABILITY_AFBC_BASIC ≠ 0 ∧
          dpu_mask &&& MALI_GRALLOC_FORMAT_CAPABILITY_AFBC_BASIC ≠ 0)
        MALI_GRALLOC_INTFMT_AFBC_BASIC internal_format
      let x := orWhen (gpu_mask &&& MALI_GRALLOC_FORMAT_CAPABILITY_AFBC_SPLITBLK ≠ 0 ∧
          dpu_mask &&& MALI_GRALLOC_FORMAT_CAPABILITY_AFBC_SPLITBLK ≠ 0)
        MALI_GRALLOC_INTFMT_AFBC_SPLITBLK x
      let x := orWhen (gpu_mask &&& MALI_GRALLOC_FORMAT_CAPABILITY_AFBC_WIDEBLK ≠ 0 ∧
          dpu_mask &&& MALI_GRALLOC_FORMAT_CAPABILITY_AFBC_WIDEBLK ≠ 0)
        MALI_GRALLOC_INTFMT_AFBC_WIDEBLK x
      let x := orWhen (gpu_mask &&& MALI_GRALLOC_FORMAT_CAPABILITY_AFBC_TILED_HEADERS ≠ 0 ∧
          dpu_mask &&& MALI_GRALLOC_FORMAT_CAPABILITY_AFBC_TILED_HEADERS ≠ 0)
        MALI_GRALLOC_INTFMT_AFBC_TILED_HEADERS x
      if req_format = MALI_GRALLOC_FORMAT_INTERNAL_RGBA_1010102 ∧
          gpu_mask &&& MALI_GRALLOC_FORMAT_CAPABILITY_PIXFMT_RGBA1010102 = 0 then 0
      else if req_format = MALI_GRALLOC_FORMAT_INTERNAL_RGBA_16161616 ∧
          gpu_mask &&& MALI_GRALLOC_FORMAT_CAPABILITY_PIXFMT_RGBA16161616 = 0 then 0
      else x
    else if consumer = .GPU_EXCL ∨ consumer = .UNKNOWN then
      let gpu_mask := gpu_mask &&& consumer_runtime_mask
      let x := orWhen (gpu_mask &&& MALI_GRALLOC_FORMAT_CAPABILITY_AFBC_BASIC ≠ 0)
        MALI_GRALLOC_INTFMT_AFBC_BASIC internal_format
      let x := orWhen (gpu_mask &&& MALI_GRALLOC_FORMAT_CAPABILITY_AFBC_TILED_HEADERS ≠ 0)
        MALI_GRALLOC_INTFMT_AFBC_TILED_HEADERS x
      if req_format = MALI_GRALLOC_FORMAT_INTERNAL_RGBA_1010102 ∧
          gpu_mask &&& MALI_GRALLOC_FORMAT_CAPABILITY_PIXFMT_RGBA1010102 = 0 then 0
      else if req_format = MALI_GRALLOC_FORMAT_INTERNAL_RGBA_16161616 ∧
          gpu_mask &&& MALI_GRALLOC_FORMAT_CAPABILITY_PIXFMT_RGBA16161616 = 0 then 0
      else x
    else if consumer = .VIDEO_ENCODER then
      let vpu_mask := caps.vpu &&& consumer_runtime_mask
      let x :=
        if internal_format = MALI_GRALLOC_FORMAT_INTERNAL_YV12 ∨
            internal_format = MALI_GRALLOC_FORMAT_INTERNAL_NV12 then
          let y := orWhen (gpu_mask &&& MALI_GRALLOC_FORMAT_CAPABILITY_AFBC_BASIC ≠ 0 ∧
              vpu_mask &&& MALI_GRALLOC_FORMAT_CAPABILITY_AFBC_BASIC ≠ 0)
            MALI_GRALLOC_INTFMT_AFBC_BASIC internal_format
          orWhen (gpu_mask &&& MALI_GRALLOC_FORMAT_CAPABILITY_AFBC_TILED_HEADERS ≠ 0 ∧
              vpu_mask &&& MALI_GRALLOC_FORMAT_CAPABILITY_AFBC_TILED_HEADERS ≠ 0)
            MALI_GRALLOC_INTFMT_AFBC_TILED_HEADERS y
        else internal_format
      if req_format = MALI_GRALLOC_FORMAT_INTERNAL_RGBA_1010102 ∧
          (gpu_mask &&& MALI_GRALLOC_FORMAT_CAPABILITY_PIXFMT_RGBA1010102 = 0 ∨
           vpu_mask &&& MALI_GRALLOC_FORMAT_CAPABILITY_PIXFMT_RGBA1010102 = 0) then 0
      else if req_format = MALI_GRALLOC_FORMAT_INTERNAL_RGBA_16161616 ∧
          (gpu_mask &&& MALI_GRALLOC_FORMAT_CAPABILITY_PIXFMT_RGBA16161616 = 0 ∨
           vpu_mask &&& MALI_GRALLOC_FORMAT_CAPABILITY_PIXFMT_RGBA16161616 = 0) then 0
      else x
    else internal_format
  else if producer = .VIDEO_DECODER ∧
      caps.vpu &&& MALI_GRALLOC_FORMAT_CAPABILITY_OPTIONS_PRESENT ≠ 0 then
    let vpu_mask := caps.vpu &&& producer_runtime_mask
    if consumer = .GPU_OR_DISPLAY then
      let gpu_mask := caps.gpu &&& consumer_runtime_mask
      let dpu_mask := caps.dpu &&& consumer_runtime_mask
      let x :=
        if internal_format = MALI_GRALLOC_FORMAT_INTERNAL_YV12 then
          let y := orWhen (vpu_mask &&& MALI_GRALLOC_FORMAT_CAPABILITY_AFBC_BASIC ≠ 0 ∧
              gpu_mask &&& MALI_GRALLOC_FORMAT_CAPABILITY_AFBC_BASIC ≠ 0 ∧
              dpu_mask &&& MALI_GRALLOC_FORMAT_CAPABILITY_AFBC_BASIC ≠ 0)
            MALI_GRALLOC_INTFMT_AFBC_BASIC internal_format
          orWhen (vpu_mask &&& MALI_GRALLOC_FORMAT_CAPABILITY_AFBC_TILED_HEADERS ≠ 0 ∧
              gpu_mask &&& MALI_GRALLOC_FORMAT_CAPABILITY_AFBC_TILED_HEADERS ≠ 0 ∧
              dpu_mask &&& MALI_GRALLOC_FORMAT_CAPABILITY_AFBC_TILED_HEADERS ≠ 0)
            MALI_GRALLOC_INTFMT_AFBC_TILED_HEADERS y
        else internal_format
      if req_format = MALI_GRALLOC_FORMAT_INTERNAL_RGBA_1010102 ∧
          (vpu_mask &&& MALI_GRALLOC_FORMAT_CAPABILITY_PIXFMT_RGBA1010102 = 0 ∨
           gpu_mask &&& MALI_GRALLOC_FORMAT_CAPABILITY_PIXFMT_RGBA1010102 = 0) then 0
      else if req_format = MALI_GRALLOC_FORMAT_INTERNAL_RGBA_16161616 ∧
          (vpu_mask &&& MALI_GRALLOC_FORMAT_CAPABILITY_PIXFMT_RGBA16161616 = 0 ∨
           gpu_mask &&& MALI_GRALLOC_FORMAT_CAPABILITY_PIXFMT_RGBA16161616 = 0) then 0
      else x
    else if consumer = .GPU_EXCL then
      let gpu_mask := caps.gpu &&& consumer_runtime_mask
      let x :=
        if internal_format = MALI_GRALLOC_FORMAT_INTERNAL_YV12 then
          let y := orWhen (gpu_mask &&& MALI_GRALLOC_FORMAT_CAPABILITY_AFBC_BASIC ≠ 0 ∧
              vpu_mask &&& MALI_GRALLOC_FORMAT_CAPABILITY_AFBC_BASIC ≠ 0)
            MALI_GRALLOC_INTFMT_AFBC_BASIC internal_format
          orWhen (gpu_mask &&& MALI_GRALLOC_FORMAT_CAPABILITY_AFBC_TILED_HEADERS ≠ 0 ∧
              vpu_mask &&& MALI_GRALLOC_FORMAT_CAPABILITY_AFBC_TILED_HEADERS ≠ 0)
            MALI_GRALLOC_INTFMT_AFBC_TILED_HEADERS y
        else internal_format
      if req_format = MALI_GRALLOC_FORMAT_INTERNAL_RGBA_1010102 ∧
          (gpu_mask &&& MALI_GRALLOC_FORMAT_CAPABILITY_PIXFMT_RGBA1010102 = 0 ∨
           vpu_mask &&& MALI_GRALLOC_FORMAT_CAPABILITY_PIXFMT_RGBA1010102 = 0) then 0
      else if req_format = MALI_GRALLOC_FORMAT_INTERNAL_RGBA_16161616 ∧
          (gpu_mask &&& MALI_GRALLOC_FORMAT_CAPABILITY_PIXFMT_RGBA16161616 = 0 ∨
           vpu_mask &&& MALI_GRALLOC_FORMAT_CAPABILITY_PIXFMT_RGBA16161616 = 0) then 0
      else x
    else if consumer = .VIDEO_ENCODER then
      -- fall-through: no AFBC flags are added
      if req_format = MALI_GRALLOC_FORMAT_INTERNAL_RGBA_1010102 ∧
          vpu_mask &&& MALI_GRALLOC_FORMAT_CAPABILITY_PIXFMT_RGBA1010102 = 0 then 0
      else if req_format = MALI_GRALLOC_FORMAT_INTERNAL_RGBA_16161616 ∧
          vpu_mask &&& MALI_GRALLOC_FORMAT_CAPABILITY_PIXFMT_RGBA16161616 = 0 then 0
      else internal_format
    else internal_format
  else if producer = .CAMERA ∧
      caps.cam &&& MALI_GRALLOC_FORMAT_CAPABILITY_OPTIONS_PRESENT ≠ 0 then
    -- all consumer branches are empty fall-throughs
    internal_format
  else if producer = .DISPLAY_AEU ∧ consumer = .DISPLAY_EXCL ∧
      caps.dpu &&& MALI_GRALLOC_FORMAT_CAPABILITY_OPTIONS_PRESENT ≠ 0 then
    let dpu_mask := caps.dpu &&& producer_runtime_mask &&& consumer_runtime_mask
    if dpu_mask &&& MALI_GRALLOC_FORMAT_CAPABILITY_AFBC_BASIC ≠ 0 then
      orWhen (dpu_mask &&& MALI_GRALLOC_FORMAT_CAPABILITY_AFBC_TILED_HEADERS ≠ 0)
        MALI_GRALLOC_INTFMT_AFBC_TILED_HEADERS
        (internal_format ||| MALI_GRALLOC_INTFMT_AFBC_BASIC)
    else internal_format
  else internal_format

/-- `validate_depth_stencil_usage` (`mali_gralloc_module.h`, SDK 28 build).
The source compares `consumer` against the producer enum constant
`MALI_GRALLOC_PRODUCER_UNKNOWN`; in the modelled enums both `UNKNOWN`
members denote the same role, so the comparison is rendered against the
consumer's `UNKNOWN`. -/
def validate_depth_stencil_usage (internal_format : Nat)
    (producer : mali_gralloc_producer_type) (consumer : mali_gralloc_consumer_type) : Nat :=
  if ¬ (producer = .GPU ∨ producer = .CPU ∨ producer = .UNKNOWN) ∨
      ¬ (consumer = .GPU_EXCL ∨ consumer = .CPU ∨ consumer = .UNKNOWN) ∨
      (producer = .UNKNOWN ∧ consumer = .UNKNOWN) then
    0
  else internal_format

/-- Front-buffer section at the end of `mali_gralloc_select_format`: attempt
to enable double-body AFBC, clearing wide/extra-wide; if double-body could
not be enabled, strip all modifier bits. -/
def select_format_frontbuffer (caps : runtime_caps_t)
    (producer : mali_gralloc_producer_type) (consumer : mali_gralloc_consumer_type)
    (internal_format : Nat) : Nat :=
  let internal_format :=
    if (producer = .UNKNOWN ∨ producer = .GPU) ∧
        (consumer = .UNKNOWN ∨ consumer = .GPU_EXCL) then
      if caps.gpu &&& MALI_GRALLOC_FORMAT_CAPABILITY_AFBC_DOUBLE_BODY ≠ 0 then
        if internal_format &&& MALI_GRALLOC_INTFMT_AFBC_BASIC ≠ 0 ∧
            internal_format &&& MALI_GRALLOC_INTFMT_AFBC_TILED_HEADERS ≠ 0 then
          cClear (cClear (internal_format ||| MALI_GRALLOC_INTFMT_AFBC_DOUBLE_BODY)
            MALI_GRALLOC_INTFMT_AFBC_WIDEBLK) MALI_GRALLOC_INTFMT_AFBC_EXTRAWIDEBLK
        else internal_format
      else internal_format
    else internal_format
  if internal_format &&& MALI_GRALLOC_INTFMT_AFBC_DOUBLE_BODY = 0 then
    internal_format &&& MALI_GRALLOC_INTFMT_FMT_MASK
  else internal_format

/-- Runtime-capability-mask determination section of
`mali_gralloc_select_format`: the producer/consumer runtime masks start as
`~0ULL` and are narrowed for NO_AFBC usage, for formats without AFBC support,
or by the per-role limitation filters. -/
def select_format_runtime_masks (caps : runtime_caps_t)
    (req_format_mapped usage buffer_size : Nat)
    (producer : mali_gralloc_producer_type) (consumer : mali_gralloc_consumer_type) :
    Nat × Nat :=
  let producer_runtime_mask := UINT64_ALL
  let consumer_runtime_mask := UINT64_ALL
  if usage &&& MALI_GRALLOC_USAGE_NO_AFBC = MALI_GRALLOC_USAGE_NO_AFBC then
    (cClear producer_runtime_mask MALI_GRALLOC_FORMAT_CAPABILITY_AFBCENABLE_MASK,
     cClear consumer_runtime_mask MALI_GRALLOC_FORMAT_CAPABILITY_AFBCENABLE_MASK)
  else if is_afbc_supported req_format_mapped = false then
    (cClear producer_runtime_mask MALI_GRALLOC_FORMAT_CAPABILITY_AFBCENABLE_MASK,
     cClear consumer_runtime_mask MALI_GRALLOC_FORMAT_CAPABILITY_AFBCENABLE_MASK)
  else
    let p :=
      if producer = .GPU ∨ producer = .GPU_OR_DISPLAY then
        apply_gpu_producer_limitations caps req_format_mapped producer_runtime_mask
      else producer_runtime_mask
    let c :=
      if consumer = .VIDEO_ENCODER then
        apply_video_consumer_limitations caps req_format_mapped consumer_runtime_mask
      else if consumer = .GPU_OR_DISPLAY ∨ consumer = .DISPLAY_EXCL then
        apply_display_consumer_limitations req_format_mapped buffer_size
          consumer_runtime_mask
      else consumer_runtime_mask
    (p, c)

/-- RAW10/RAW12/RAW16/Y8/Y16 rejection section of
`mali_gralloc_select_format`: these formats are only allowed when produced
and consumed by CPU, camera or unknown roles. -/
def select_format_reject_raw (req_format_mapped : Nat)
    (producer : mali_gralloc_producer_type) (consumer : mali_gralloc_consumer_type)
    (internal_format : Nat) : Nat :=
  if req_format_mapped = MALI_GRALLOC_FORMAT_INTERNAL_RAW10 ∨
      req_format_mapped = MALI_GRALLOC_FORMAT_INTERNAL_RAW12 ∨
      req_format_mapped = MALI_GRALLOC_FORMAT_INTERNAL_RAW16 ∨
      req_format_mapped = MALI_GRALLOC_FORMAT_INTERNAL_Y8 ∨
      req_format_mapped = MALI_GRALLOC_FORMAT_INTERNAL_Y16 then
    if (producer ≠ .CPU ∧ producer ≠ .CAMERA ∧ producer ≠ .UNKNOWN) ∨
        (consumer ≠ .CPU ∧ consumer ≠ .UNKNOWN) then 0
    else internal_format
  else internal_format

/-- Depth/stencil rejection section of `mali_gralloc_select_format`
(SDK 28 build). -/
def select_format_reject_depth (req_format_mapped : Nat)
    (producer : mali_gralloc_producer_type) (consumer : mali_gralloc_consumer_type)
    (internal_format : Nat) : Nat :=
  if is_depth_or_stencil_format req_format_mapped then
    validate_depth_stencil_usage internal_format producer consumer
  else internal_format

/-- `mali_gralloc_select_format` (`mali_gralloc_module.h`).  The runtime
capabilities are passed explicitly (the C reads the lazily-initialised
globals).  The `goto out` early exits are rendered as nested early returns:
private-format / internal-type requests are decoded directly; a CPU
producer or consumer returns the mapped request unmodified; the NO_AFBC +
YUV combination returns 0.  The remaining stages (runtime-mask narrowing,
best-format determination, RAW and depth rejection, front-buffer handling)
are factored into the helper definitions above, applied in source order. -/
def mali_gralloc_select_format (caps : runtime_caps_t) (req_format : Nat)
    (t : mali_gralloc_format_type) (usage : Nat) (buffer_size : Nat) : Nat :=
  if usage &&& MALI_GRALLOC_USAGE_PRIVATE_FORMAT ≠ 0 ∨ t = .INTERNAL then
    decode_internal_format req_format t
  else
    let req_format_mapped := map_flex_formats (req_format &&& MALI_GRALLOC_INTFMT_FMT_MASK)
    if (determine_producer usage).1 = false ∨ (determine_consumer caps usage).1 = false then
      req_format_mapped
    else
      let producer := (determine_producer usage).2
      let consumer := (determine_consumer caps usage).2
      if usage &&& MALI_GRALLOC_USAGE_NO_AFBC = MALI_GRALLOC_USAGE_NO_AFBC ∧
          is_android_yuv_format req_format_mapped = true then
        0
      else
        let masks := select_format_runtime_masks caps req_format_mapped usage buffer_size
          producer consumer
        let internal_format :=
          determine_best_format caps req_format_mapped producer consumer masks.1 masks.2
        let internal_format := select_format_reject_raw req_format_mapped producer consumer
          internal_format
        let internal_format := select_format_reject_depth req_format_mapped producer consumer
          internal_format
        if usage &&& MALI_GRALLOC_USAGE_FRONTBUFFER ≠ 0 then
          select_format_frontbuffer caps producer consumer internal_format
        else internal_format


/-! ## Facts about classification and the selector used by claims C1 and C5 -/

theorem determine_producer_ok (usage : Nat)
    (h : usage &&& (GRALLOC_USAGE_SW_READ_MASK ||| GRALLOC_USAGE_SW_WRITE_MASK) = 0) :
    (determine_producer usage).1 = true := by
  unfold determine_producer
  rw [if_neg (by simp [h])]
  repeat' split
  all_goals rfl

theorem determine_consumer_ok (caps : runtime_caps_t) (usage : Nat)
    (h : usage &&& (GRALLOC_USAGE_SW_READ_MASK ||| GRALLOC_USAGE_SW_WRITE_MASK) = 0) :
    (determine_consumer caps usage).1 = true := by
  unfold determine_consumer
  rw [if_neg (by simp [h])]
  repeat' split
  all_goals rfl

/-- Every YUV catalog entry maps to itself under `map_flex_formats` (none of
the remapped identifiers is a catalog YUV id) and is recognised by
`is_android_yuv_format`. -/
theorem catalog_yuv_entry_facts :
    ∀ e ∈ formats, e.is_yuv = true →
      map_flex_formats (e.id &&& MALI_GRALLOC_INTFMT_FMT_MASK) = e.id ∧
      is_android_yuv_format e.id = true := by
  decide

/-! ## Claim C1: NO_AFBC usage together with a YUV catalog format -/

/-- C1 counterexample: the claim as stated quantifies over every usage with
both NO_AFBC bits set, but when CPU (software) usage bits are also present
`mali_gralloc_select_format` returns early with the mapped format before the
NO_AFBC test runs: for the YUV catalog entry NV12 and usage
`NO_AFBC | SW_READ_OFTEN` the selector returns NV12, not 0. -/
theorem select_format_no_afbc_yuv_counterexample :
    is_android_yuv_format MALI_GRALLOC_FORMAT_INTERNAL_NV12 = true ∧
    (MALI_GRALLOC_USAGE_NO_AFBC ||| GRALLOC_USAGE_SW_READ_OFTEN) &&&
      MALI_GRALLOC_USAGE_NO_AFBC = MALI_GRALLOC_USAGE_NO_AFBC ∧
    mali_gralloc_select_format ⟨0, 0, 0, 0⟩ MALI_GRALLOC_FORMAT_INTERNAL_NV12 .USAGE
      (MALI_GRALLOC_USAGE_NO_AFBC ||| GRALLOC_USAGE_SW_READ_OFTEN) 100 =
      MALI_GRALLOC_FORMAT_INTERNAL_NV12 := by
  refine ⟨by decide, by decide, by decide⟩

/-- C1 (amended): for every YUV catalog entry and every usage that carries
both NO_AFBC bits, provided the usage carries no CPU (software read/write)
bits and not the private-format escape, and the format type is the usage
type, `mali_gralloc_select_format` returns 0 (rejection), for every
capability state, usage and buffer size. -/
theorem select_format_rejects_no_afbc_yuv (caps : runtime_caps_t)
    (usage buffer_size : Nat) (entry : format_info_t)
    (hentry : entry ∈ formats) (hyuv : entry.is_yuv = true)
    (hnoafbc : usage &&& MALI_GRALLOC_USAGE_NO_AFBC = MALI_GRALLOC_USAGE_NO_AFBC)
    (hsw : usage &&& (GRALLOC_USAGE_SW_READ_MASK ||| GRALLOC_USAGE_SW_WRITE_MASK) = 0)
    (hpf : usage &&& MALI_GRALLOC_USAGE_PRIVATE_FORMAT = 0) :
    mali_gralloc_select_format caps entry.id .USAGE usage buffer_size = 0 := by
  obtain ⟨hmap, hyuv2⟩ := catalog_yuv_entry_facts entry hentry hyuv
  have hp := determine_producer_ok usage hsw
  have hc := determine_consumer_ok caps usage hsw
  simp only [mali_gralloc_select_format]
  rw [if_neg (by simp [hpf]), hmap, if_neg (by simp [hp, hc]),
    if_pos ⟨hnoafbc, hyuv2⟩]

/-- Witness for C1 (amended) at the NV12 catalog entry with usage exactly
NO_AFBC. -/
theorem select_format_rejects_no_afbc_yuv_witness :
    (formatsD 10) ∈ formats ∧ (formatsD 10).is_yuv = true ∧
    (formatsD 10).id = MALI_GRALLOC_FORMAT_INTERNAL_NV12 ∧
    MALI_GRALLOC_USAGE_NO_AFBC &&& MALI_GRALLOC_USAGE_NO_AFBC =
      MALI_GRALLOC_USAGE_NO_AFBC ∧
    mali_gralloc_select_format ⟨1, 1, 1, 1⟩ (formatsD 10).id .USAGE
      MALI_GRALLOC_USAGE_NO_AFBC 100 = 0 :=
  ⟨by decide, by decide, by decide, by decide,
    select_format_rejects_no_afbc_yuv ⟨1, 1, 1, 1⟩ MALI_GRALLOC_USAGE_NO_AFBC 100
      (formatsD 10) (by decide) (by decide) (by decide) (by decide) (by decide)⟩

/-! ## Claim C5: front-buffer usage either enables double-body or strips all
modifiers -/

theorem land_eq_zero_testBit {a m : Nat} (h : a &&& m = 0) (i : Nat) :
    (a.testBit i && m.testBit i) = false := by
  have h2 := congrArg (fun x => Nat.testBit x i) h
  simpa [Nat.testBit_land] using h2

theorem land_lor_mask_eq_zero {a m1 m2 : Nat} (h1 : a &&& m1 = 0)
    (h2 : a &&& m2 = 0) : a &&& (m1 ||| m2) = 0 := by
  apply land_eq_zero_of_testBit
  intro i hi
  have e1 := land_eq_zero_testBit h1 i
  have e2 := land_eq_zero_testBit h2 i
  rw [hi] at e1 e2
  simp only [Bool.true_and] at e1 e2
  simp [Nat.testBit_lor, e1, e2]

theorem land_pow_eq_zero {a : Nat} (k : Nat) (h : a.testBit k = false) :
    a &&& 2 ^ k = 0 := by
  apply land_eq_zero_of_testBit
  intro i hi
  rw [Nat.testBit_two_pow]
  rcases eq_or_ne k i with rfl | hne
  · rw [h] at hi
    exact absurd hi (by simp)
  · simp [hne]

theorem land_high_mask_eq_zero {a : Nat} (m : Nat) (ha : a < 2 ^ 32)
    (hm : ∀ i, i < 32 → m.testBit i = false) : a &&& m = 0 := by
  apply land_eq_zero_of_testBit
  intro i hi
  by_cases h32 : i < 32
  · exact hm i h32
  · have hfalse : a.testBit i = false :=
      Nat.testBit_lt_two_pow
        (lt_of_lt_of_le ha (Nat.pow_le_pow_right (by norm_num) (le_of_not_lt h32)))
    rw [hfalse] at hi
    exact absurd hi (by simp)

theorem testBit_lor_false {a b : Nat} (k : Nat) (ha : a.testBit k = false)
    (hb : b.testBit k = false) : (a ||| b).testBit k = false := by
  simp [Nat.testBit_lor, ha, hb]

theorem orWhen_testBit_false {c : Prop} [Decidable c] {bit x : Nat} {k : Nat}
    (hb : bit.testBit k = false) (hx : x.testBit k = false) :
    (orWhen c bit x).testBit k = false := by
  unfold orWhen
  split
  · exact testBit_lor_false k hx hb
  · exact hx

theorem map_flex_formats_lt {x : Nat} (hx : x < 2 ^ 32) :
    map_flex_formats x < 2 ^ 32 := by
  simp only [map_flex_formats]
  repeat' split
  all_goals first | decide | exact hx

/-- `determine_best_format` never sets the double-body modifier: its result
only ever ORs the basic / split / wide / tiled modifier bits onto the
requested format, or is zero. -/
theorem determine_best_format_db_free (caps : runtime_caps_t) (req : Nat)
    (producer : mali_gralloc_producer_type) (consumer : mali_gralloc_consumer_type)
    (p_mask c_mask : Nat) (hreq : req.testBit 37 = false) :
    (determine_best_format caps req producer consumer p_mask c_mask).testBit 37 = false := by
  simp only [determine_best_format]
  repeat' split
  all_goals
    repeat first
      | exact hreq
      | exact Nat.zero_testBit 37
      | apply orWhen_testBit_false
      | apply testBit_lor_false
      | decide

/-- `select_format_reject_raw` never sets the double-body modifier. -/
theorem select_format_reject_raw_db_free (rm : Nat)
    (producer : mali_gralloc_producer_type) (consumer : mali_gralloc_consumer_type)
    (x : Nat) (hx : x.testBit 37 = false) :
    (select_format_reject_raw rm producer consumer x).testBit 37 = false := by
  unfold select_format_reject_raw
  repeat' split
  all_goals first | exact Nat.zero_testBit 37 | exact hx

/-- `validate_depth_stencil_usage` never sets the double-body modifier. -/
theorem validate_depth_stencil_usage_db_free (x : Nat)
    (producer : mali_gralloc_producer_type) (consumer : mali_gralloc_consumer_type)
    (hx : x.testBit 37 = false) :
    (validate_depth_stencil_usage x producer consumer).testBit 37 = false := by
  unfold validate_depth_stencil_usage
  split
  · exact Nat.zero_testBit 37
  · exact hx

theorem cClear_testBit (x mask : Nat) (k : Nat) (hk : k < 64) :
    (cClear x mask).testBit k = (x.testBit k && !(mask.testBit k)) := by
  have h1 : UINT64_ALL = 2 ^ 64 - 1 := by decide
  rw [cClear, Nat.testBit_land, h1, Nat.testBit_xor, Nat.testBit_two_pow_sub_one]
  simp only [hk, decide_True]
  cases mask.testBit k <;> cases x.testBit k <;> rfl

theorem strip_fmt_ext (z : Nat) :
    (z &&& MALI_GRALLOC_INTFMT_FMT_MASK) &&& MALI_GRALLOC_INTFMT_EXT_MASK = 0 := by
  rw [Nat.and_assoc]
  have h : MALI_GRALLOC_INTFMT_FMT_MASK &&& MALI_GRALLOC_INTFMT_EXT_MASK = 0 := by decide
  rw [h, Nat.and_zero]

theorem strip_fmt_db (z : Nat) :
    (z &&& MALI_GRALLOC_INTFMT_FMT_MASK) &&& MALI_GRALLOC_INTFMT_AFBC_DOUBLE_BODY = 0 := by
  rw [Nat.and_assoc]
  have h : MALI_GRALLOC_INTFMT_FMT_MASK &&& MALI_GRALLOC_INTFMT_AFBC_DOUBLE_BODY = 0 := by
    decide
  rw [h, Nat.and_zero]

/-- `select_format_reject_depth` never sets the double-body modifier. -/
theorem select_format_reject_depth_db_free (rm : Nat)
    (producer : mali_gralloc_producer_type) (consumer : mali_gralloc_consumer_type)
    (x : Nat) (hx : x.testBit 37 = false) :
    (select_format_reject_depth rm producer consumer x).testBit 37 = false := by
  unfold select_format_reject_depth
  split
  · exact validate_depth_stencil_usage_db_free x producer consumer hx
  · exact hx

/-- Behaviour of the front-buffer section: starting from any double-body-free
internal format, the result either has double-body set with wide and
extra-wide cleared, or has all modifier bits stripped. -/
theorem select_format_frontbuffer_spec (caps : runtime_caps_t)
    (producer : mali_gralloc_producer_type) (consumer : mali_gralloc_consumer_type)
    (x : Nat) (hx : x.testBit 37 = false) :
    ((select_format_frontbuffer caps producer consumer x) &&&
        MALI_GRALLOC_INTFMT_AFBC_DOUBLE_BODY = 0 →
      (select_format_frontbuffer caps producer consumer x) &&&
        MALI_GRALLOC_INTFMT_EXT_MASK = 0) ∧
    ((select_format_frontbuffer caps producer consumer x) &&&
        MALI_GRALLOC_INTFMT_AFBC_DOUBLE_BODY ≠ 0 →
      (select_format_frontbuffer caps producer consumer x) &&&
        (MALI_GRALLOC_INTFMT_AFBC_WIDEBLK ||| MALI_GRALLOC_INTFMT_AFBC_EXTRAWIDEBLK) = 0) := by
  have hdb : MALI_GRALLOC_INTFMT_AFBC_DOUBLE_BODY = 2 ^ 37 := by decide
  simp only [select_format_frontbuffer]
  split
  case isTrue hpc =>
    split
    case isTrue hcap =>
      split
      case isTrue hbits =>
        -- double-body enabled; wide and extra-wide cleared
        set y := cClear (cClear (x ||| MALI_GRALLOC_INTFMT_AFBC_DOUBLE_BODY)
          MALI_GRALLOC_INTFMT_AFBC_WIDEBLK) MALI_GRALLOC_INTFMT_AFBC_EXTRAWIDEBLK with hy
        have hyb : y.testBit 37 = true := by
          rw [hy, cClear_testBit _ _ 37 (by norm_num), cClear_testBit _ _ 37 (by norm_num),
            Nat.testBit_lor]
          have e1 : MALI_GRALLOC_INTFMT_AFBC_DOUBLE_BODY.testBit 37 = true := by decide
          have e2 : MALI_GRALLOC_INTFMT_AFBC_WIDEBLK.testBit 37 = false := by decide
          have e3 : MALI_GRALLOC_INTFMT_AFBC_EXTRAWIDEBLK.testBit 37 = false := by decide
          rw [e1, e2, e3]
          simp
        have hyne : y &&& MALI_GRALLOC_INTFMT_AFBC_DOUBLE_BODY ≠ 0 := by
          rw [hdb]
          exact land_ne_zero_of_testBit 37 hyb (by decide)
        rw [if_neg (by simpa using hyne)]
        refine ⟨fun h => absurd h hyne, fun _ => ?_⟩
        apply land_lor_mask_eq_zero
        · have hb34 : y.testBit 34 = false := by
            rw [hy, cClear_testBit _ _ 34 (by norm_num), cClear_testBit _ _ 34 (by norm_num)]
            have e2 : MALI_GRALLOC_INTFMT_AFBC_WIDEBLK.testBit 34 = true := by decide
            rw [e2]
            simp
          have h34 : MALI_GRALLOC_INTFMT_AFBC_WIDEBLK = 2 ^ 34 := by decide
          rw [h34]
          exact land_pow_eq_zero 34 hb34
        · have hb36 : y.testBit 36 = false := by
            rw [hy, cClear_testBit _ _ 36 (by norm_num)]
            have e3 : MALI_GRALLOC_INTFMT_AFBC_EXTRAWIDEBLK.testBit 36 = true := by decide
            rw [e3]
            simp
          have h36 : MALI_GRALLOC_INTFMT_AFBC_EXTRAWIDEBLK = 2 ^ 36 := by decide
          rw [h36]
          exact land_pow_eq_zero 36 hb36
      case isFalse =>
        rw [if_pos (by rw [hdb]; exact land_pow_eq_zero 37 hx)]
        exact ⟨fun _ => strip_fmt_ext x, fun h => absurd (strip_fmt_db x) h⟩
    case isFalse =>
      rw [if_pos (by rw [hdb]; exact land_pow_eq_zero 37 hx)]
      exact ⟨fun _ => strip_fmt_ext x, fun h => absurd (strip_fmt_db x) h⟩
  case isFalse =>
    rw [if_pos (by rw [hdb]; exact land_pow_eq_zero 37 hx)]
    exact ⟨fun _ => strip_fmt_ext x, fun h => absurd (strip_fmt_db x) h⟩

/-- C5 counterexample: the claim as stated covers every request carrying the
front-buffer usage flag, but a request using the internal-format type (the
private-format escape path) bypasses the front-buffer section entirely: with
front-buffer usage and internal format NV12 + AFBC basic, the selector
returns the format with the AFBC bit still set and double-body clear,
instead of stripping the modifier. -/
theorem select_format_frontbuffer_counterexample :
    MALI_GRALLOC_USAGE_FRONTBUFFER &&& MALI_GRALLOC_USAGE_FRONTBUFFER ≠ 0 ∧
    mali_gralloc_select_format ⟨0, 0, 0, 0⟩
      (MALI_GRALLOC_FORMAT_INTERNAL_NV12 + 0x100000000) .INTERNAL
      MALI_GRALLOC_USAGE_FRONTBUFFER 0 =
      MALI_GRALLOC_FORMAT_INTERNAL_NV12 + 0x100000000 ∧
    (MALI_GRALLOC_FORMAT_INTERNAL_NV12 + 0x100000000) &&&
      MALI_GRALLOC_INTFMT_AFBC_DOUBLE_BODY = 0 ∧
    (MALI_GRALLOC_FORMAT_INTERNAL_NV12 + 0x100000000) &&&
      MALI_GRALLOC_INTFMT_EXT_MASK ≠ 0 := by
  refine ⟨by decide, by decide, by decide, by decide⟩

/-- C5 (amended): for every request carrying the front-buffer usage flag that
does not use the private-format escape (no PRIVATE_FORMAT flag and
usage-type format), if the selected internal format does not end up with the
double-body bit set then every modifier bit is cleared (only the base format
is returned), and whenever double-body is enabled the wide-block and
extra-wide-block bits are cleared. -/
theorem select_format_frontbuffer_fallback (caps : runtime_caps_t)
    (req_format usage buffer_size : Nat)
    (hpf : usage &&& MALI_GRALLOC_USAGE_PRIVATE_FORMAT = 0)
    (hfb : usage &&& MALI_GRALLOC_USAGE_FRONTBUFFER ≠ 0) :
    (mali_gralloc_select_format caps req_format .USAGE usage buffer_size &&&
        MALI_GRALLOC_INTFMT_AFBC_DOUBLE_BODY = 0 →
      mali_gralloc_select_format caps req_format .USAGE usage buffer_size &&&
        MALI_GRALLOC_INTFMT_EXT_MASK = 0) ∧
    (mali_gralloc_select_format caps req_format .USAGE usage buffer_size &&&
        MALI_GRALLOC_INTFMT_AFBC_DOUBLE_BODY ≠ 0 →
      mali_gralloc_select_format caps req_format .USAGE usage buffer_size &&&
        (MALI_GRALLOC_INTFMT_AFBC_WIDEBLK ||| MALI_GRALLOC_INTFMT_AFBC_EXTRAWIDEBLK) = 0) := by
  have hlt : map_flex_formats (req_format &&& MALI_GRALLOC_INTFMT_FMT_MASK) < 2 ^ 32 :=
    map_flex_formats_lt
      (lt_of_le_of_lt Nat.and_le_right (by rw [MALI_GRALLOC_INTFMT_FMT_MASK]; norm_num))
  have hreqm : (map_flex_formats (req_format &&& MALI_GRALLOC_INTFMT_FMT_MASK)).testBit 37 =
      false :=
    Nat.testBit_lt_two_pow (lt_of_lt_of_le hlt (Nat.pow_le_pow_right (by norm_num) (by norm_num)))
  simp only [mali_gralloc_select_format]
  rw [if_neg (by simp [hpf])]
  split
  · -- CPU producer or consumer: the mapped base format is returned unchanged
    constructor
    · intro _
      exact land_high_mask_eq_zero _ hlt (by decide)
    · intro h
      exact absurd (land_high_mask_eq_zero _ hlt (by decide)) h
  · split
    · -- NO_AFBC + YUV rejection: result 0
      constructor
      · intro _
        rw [Nat.zero_and]
      · intro h
        rw [Nat.zero_and] at h
        exact absurd rfl h
    · apply select_format_frontbuffer_spec
      apply select_format_reject_depth_db_free
      apply select_format_reject_raw_db_free
      exact determine_best_format_db_free _ _ _ _ _ _ hreqm

/-- Witness for C5 (amended): front-buffer usage with NV12 and no capability
support for double-body; the resulting format is the bare base format. -/
theorem select_format_frontbuffer_fallback_witness :
    MALI_GRALLOC_USAGE_FRONTBUFFER &&& MALI_GRALLOC_USAGE_PRIVATE_FORMAT = 0 ∧
    MALI_GRALLOC_USAGE_FRONTBUFFER &&& MALI_GRALLOC_USAGE_FRONTBUFFER ≠ 0 ∧
    ((mali_gralloc_select_format ⟨0, 0, 0, 0⟩ MALI_GRALLOC_FORMAT_INTERNAL_NV12 .USAGE
        MALI_GRALLOC_USAGE_FRONTBUFFER 100 &&&
        MALI_GRALLOC_INTFMT_AFBC_DOUBLE_BODY = 0 →
      mali_gralloc_select_format ⟨0, 0, 0, 0⟩ MALI_GRALLOC_FORMAT_INTERNAL_NV12 .USAGE
        MALI_GRALLOC_USAGE_FRONTBUFFER 100 &&&
        MALI_GRALLOC_INTFMT_EXT_MASK = 0) ∧
    (mali_gralloc_select_format ⟨0, 0, 0, 0⟩ MALI_GRALLOC_FORMAT_INTERNAL_NV12 .USAGE
        MALI_GRALLOC_USAGE_FRONTBUFFER 100 &&&
        MALI_GRALLOC_INTFMT_AFBC_DOUBLE_BODY ≠ 0 →
      mali_gralloc_select_format ⟨0, 0, 0, 0⟩ MALI_GRALLOC_FORMAT_INTERNAL_NV12 .USAGE
        MALI_GRALLOC_USAGE_FRONTBUFFER 100 &&&
        (MALI_GRALLOC_INTFMT_AFBC_WIDEBLK ||| MALI_GRALLOC_INTFMT_AFBC_EXTRAWIDEBLK) = 0)) :=
  ⟨by decide, by decide,
    select_format_frontbuffer_fallback ⟨0, 0, 0, 0⟩ MALI_GRALLOC_FORMAT_INTERNAL_NV12
      MALI_GRALLOC_USAGE_FRONTBUFFER 100 (by decide) (by decide)⟩

/-! ## Geometry calculation (`calc_allocation_size` and helpers) -/

/-- `AFBC_PIXELS_PER_BLOCK` (geometry source file). -/
def AFBC_PIXELS_PER_BLOCK : Nat := 16

/-- `AFBC_HEADER_BUFFER_BYTES_PER_BLOCKENTRY` (geometry source file). -/
def AFBC_HEADER_BUFFER_BYTES_PER_BLOCKENTRY : Nat := 16

/-- `afbc_buffer_align` (geometry source file): align to 1024 bytes, or 4096
when tiled headers are used. -/
def afbc_buffer_align (is_tiled : Bool) (size : Nat) : Nat :=
  GRALLOC_ALIGN size (if is_tiled then 4 * 1024 else 1024)

/-- `plane_info_t` (`mali_gralloc_buffer.h`). -/
structure plane_info_t where
  offset : Nat
  byte_stride : Nat
  alloc_width : Nat
  alloc_height : Nat
deriving Repr, DecidableEq

/-- `get_pixel_w_h` (geometry source file): round the plane dimensions to the
subsampling factors, sub-sample chroma planes, then align to the maximum of
pixel alignment, linear tile size and AFBC tile dimensions. -/
def get_pixel_w_h (width height : Nat) (format : format_info_t)
    (alloc_type : alloc_type_t) (plane : Nat) (has_cpu_usage : Bool) : Nat × Nat :=
  let sb := get_afbc_sb_size alloc_type plane
  let width := GRALLOC_ALIGN width format.hsub
  let height := GRALLOC_ALIGN height format.vsub
  let width := if 0 < plane then width / format.hsub else width
  let height := if 0 < plane then height / format.vsub else height
  let pixel_align_w : Nat :=
    if has_cpu_usage then format.pwa
    else if alloc_type.is_afbc then
      -- HEADER_STRIDE_ALIGN_IN_SUPER_BLOCKS is 0
      let num_sb_align := if alloc_type.is_padded ∧ format.is_yuv = false then 4 else 0
      max 0 num_sb_align * sb.width
    else 0
  let afbc_tile : rect_t :=
    if alloc_type.is_tiled then
      ⟨(if 32 < format.bpp_afbc.getD plane 0 then 4 * sb.width else 8 * sb.width),
       (if 32 < format.bpp_afbc.getD plane 0 then 4 * sb.height else 8 * sb.height)⟩
    else sb
  (GRALLOC_ALIGN width (max (max (max 1 pixel_align_w) format.tile_size) afbc_tile.width),
   GRALLOC_ALIGN height (max (max 1 format.tile_size) afbc_tile.height))

/-- Byte-stride computation for one plane of `calc_allocation_size`.
`luma_stride` is the final plane-0 stride (read by the YV12 chroma branch);
for plane 0 the YV12 update is applied to the freshly aligned stride. -/
def calc_byte_stride (alloc_width : Nat) (alloc_type : alloc_type_t)
    (format : format_info_t) (has_cpu_usage has_hw_usage : Bool)
    (plane luma_stride : Nat) : Nat :=
  if alloc_type.is_afbc then
    alloc_width * format.bpp_afbc.getD plane 0 / 8
  else
    let byte_stride := alloc_width * format.bpp.getD plane 0 / 8
    let hw_align := if has_hw_usage then (if format.is_yuv then 128 else 64) else 0
    let cpu_align := if has_cpu_usage then format.bpp.getD plane 0 * format.pwa / 8 else 0
    let stride_align := lcm hw_align cpu_align
    let byte_stride := GRALLOC_ALIGN byte_stride stride_align
    if format.id = MALI_GRALLOC_FORMAT_INTERNAL_YV12 ∧ has_hw_usage = true ∧
        has_cpu_usage = true then
      (update_yv12_stride plane (if plane = 0 then byte_stride else luma_stride)
        stride_align).byte_stride
    else byte_stride

/-- Body-size computation for one plane of `calc_allocation_size`. -/
def calc_body_size (alloc_width alloc_height byte_stride : Nat)
    (alloc_type : alloc_type_t) (format : format_info_t) (plane : Nat) : Nat :=
  if alloc_type.is_afbc then
    let sb := get_afbc_sb_size alloc_type plane
    let sb_num := alloc_width * alloc_height /
      (AFBC_PIXELS_PER_BLOCK * AFBC_PIXELS_PER_BLOCK)
    let sb_bytes := GRALLOC_ALIGN (format.bpp_afbc.getD plane 0 * sb.width * sb.height / 8) 128
    let body_size := sb_num * sb_bytes
    let body_size :=
      if 1 < format.npln ∧ plane < 2 then afbc_buffer_align alloc_type.is_tiled body_size
      else body_size
    if alloc_type.is_frontbuffer_safe then
      body_size + afbc_buffer_align alloc_type.is_tiled body_size
    else body_size
  else
    byte_stride * alloc_height

/-- Header-size computation for one plane of `calc_allocation_size`. -/
def calc_header_size (alloc_width alloc_height : Nat) (alloc_type : alloc_type_t) : Nat :=
  if alloc_type.is_afbc then
    let sb_num := alloc_width * alloc_height /
      (AFBC_PIXELS_PER_BLOCK * AFBC_PIXELS_PER_BLOCK)
    afbc_buffer_align alloc_type.is_tiled (sb_num * AFBC_HEADER_BUFFER_BYTES_PER_BLOCKENTRY)
  else 0

/-- Per-plane loop of `calc_allocation_size` over the listed plane indices,
accumulating the total size and the plane records.  `luma_stride` carries
`plane_info[0].byte_stride` (written in the plane-0 iteration, read by the
YV12 chroma branch). -/
def calc_planes (width height : Nat) (alloc_type : alloc_type_t)
    (format : format_info_t) (has_cpu_usage has_hw_usage : Bool) :
    List Nat → Nat → Nat → Nat × List plane_info_t
  | [], size, _ => (size, [])
  | plane :: rest, size, luma_stride =>
    let wh := get_pixel_w_h width height format alloc_type plane has_cpu_usage
    let byte_stride := calc_byte_stride wh.1 alloc_type format has_cpu_usage has_hw_usage
      plane luma_stride
    let luma_stride := if plane = 0 then byte_stride else luma_stride
    let body_size := calc_body_size wh.1 wh.2 byte_stride alloc_type format plane
    let header_size := calc_header_size wh.1 wh.2 alloc_type
    let info : plane_info_t :=
      { offset := if plane = 0 then 0 else size
        byte_stride := byte_stride
        alloc_width := wh.1
        alloc_height := wh.2 }
    let next := calc_planes width height alloc_type format has_cpu_usage has_hw_usage
      rest (size + body_size + header_size) luma_stride
    (next.1, info :: next.2)

/-- `calc_allocation_size` (geometry source file): returns the pixel stride,
the total size and the per-plane layout. -/
def calc_allocation_size (width height : Nat) (alloc_type : alloc_type_t)
    (format : format_info_t) (has_cpu_usage has_hw_usage : Bool) :
    Nat × Nat × List plane_info_t :=
  let r := calc_planes width height alloc_type format has_cpu_usage has_hw_usage
    (List.range format.npln) 0 0
  let pixel_stride :=
    if alloc_type.is_afbc = false ∧ has_cpu_usage = true then
      (r.2.headD ⟨0, 0, 0, 0⟩).byte_stride * 8 / format.bpp.getD 0 0
    else 0
  (pixel_stride, r.1, r.2)

/-! ## Claim C2: total size is monotone in the requested dimensions -/

theorem GRALLOC_ALIGN_mono {v1 v2 : Nat} (base : Nat) (h : v1 ≤ v2) :
    GRALLOC_ALIGN v1 base ≤ GRALLOC_ALIGN v2 base := by
  unfold GRALLOC_ALIGN
  split
  · exact h
  · exact Nat.mul_le_mul_right _ (Nat.div_le_div_right (by omega))

theorem get_pixel_w_h_mono {w1 h1 w2 h2 : Nat} (format : format_info_t)
    (alloc_type : alloc_type_t) (plane : Nat) (has_cpu_usage : Bool)
    (hw : w1 ≤ w2) (hh : h1 ≤ h2) :
    (get_pixel_w_h w1 h1 format alloc_type plane has_cpu_usage).1 ≤
      (get_pixel_w_h w2 h2 format alloc_type plane has_cpu_usage).1 ∧
    (get_pixel_w_h w1 h1 format alloc_type plane has_cpu_usage).2 ≤
      (get_pixel_w_h w2 h2 format alloc_type plane has_cpu_usage).2 := by
  unfold get_pixel_w_h
  constructor
  · apply GRALLOC_ALIGN_mono
    split
    · exact Nat.div_le_div_right (GRALLOC_ALIGN_mono _ hw)
    · exact GRALLOC_ALIGN_mono _ hw
  · apply GRALLOC_ALIGN_mono
    split
    · exact Nat.div_le_div_right (GRALLOC_ALIGN_mono _ hh)
    · exact GRALLOC_ALIGN_mono _ hh

theorem update_yv12_stride_mono {l1 l2 : Nat} (plane stride_align : Nat) (h : l1 ≤ l2) :
    (update_yv12_stride plane l1 stride_align).byte_stride ≤
      (update_yv12_stride plane l2 stride_align).byte_stride := by
  unfold update_yv12_stride
  split
  · exact GRALLOC_ALIGN_mono _ h
  · exact Nat.div_le_div_right h

theorem calc_byte_stride_mono {aw1 aw2 l1 l2 : Nat} (alloc_type : alloc_type_t)
    (format : format_info_t) (has_cpu_usage has_hw_usage : Bool) (plane : Nat)
    (haw : aw1 ≤ aw2) (hl : l1 ≤ l2) :
    calc_byte_stride aw1 alloc_type format has_cpu_usage has_hw_usage plane l1 ≤
      calc_byte_stride aw2 alloc_type format has_cpu_usage has_hw_usage plane l2 := by
  simp only [calc_byte_stride]
  split
  · exact Nat.div_le_div_right (Nat.mul_le_mul_right _ haw)
  · split
    · apply update_yv12_stride_mono
      split
      · exact GRALLOC_ALIGN_mono _ (Nat.div_le_div_right (Nat.mul_le_mul_right _ haw))
      · exact hl
    · exact GRALLOC_ALIGN_mono _ (Nat.div_le_div_right (Nat.mul_le_mul_right _ haw))

theorem afbc_buffer_align_mono {a b : Nat} (is_tiled : Bool) (h : a ≤ b) :
    afbc_buffer_align is_tiled a ≤ afbc_buffer_align is_tiled b :=
  GRALLOC_ALIGN_mono _ h

theorem ite_le {c : Prop} [Decidable c] {a1 b1 a2 b2 : Nat} (ha : a1 ≤ a2)
    (hb : b1 ≤ b2) : (if c then a1 else b1) ≤ (if c then a2 else b2) := by
  split
  · exact ha
  · exact hb

theorem calc_body_size_mono {aw1 ah1 bs1 aw2 ah2 bs2 : Nat}
    (alloc_type : alloc_type_t) (format : format_info_t) (plane : Nat)
    (haw : aw1 ≤ aw2) (hah : ah1 ≤ ah2) (hbs : bs1 ≤ bs2) :
    calc_body_size aw1 ah1 bs1 alloc_type format plane ≤
      calc_body_size aw2 ah2 bs2 alloc_type format plane := by
  simp only [calc_body_size]
  split
  · have hsb : aw1 * ah1 / (AFBC_PIXELS_PER_BLOCK * AFBC_PIXELS_PER_BLOCK) ≤
        aw2 * ah2 / (AFBC_PIXELS_PER_BLOCK * AFBC_PIXELS_PER_BLOCK) :=
      Nat.div_le_div_right (Nat.mul_le_mul haw hah)
    have hX := ite_le (c := 1 < format.npln ∧ plane < 2)
      (afbc_buffer_align_mono alloc_type.is_tiled
        (Nat.mul_le_mul_right
          (GRALLOC_ALIGN (format.bpp_afbc.getD plane 0 *
            (get_afbc_sb_size alloc_type plane).width *
            (get_afbc_sb_size alloc_type plane).height / 8) 128) hsb))
      (Nat.mul_le_mul_right
        (GRALLOC_ALIGN (format.bpp_afbc.getD plane 0 *
          (get_afbc_sb_size alloc_type plane).width *
          (get_afbc_sb_size alloc_type plane).height / 8) 128) hsb)
    exact ite_le (Nat.add_le_add hX (afbc_buffer_align_mono _ hX)) hX
  · exact Nat.mul_le_mul hbs hah

theorem calc_header_size_mono {aw1 ah1 aw2 ah2 : Nat} (alloc_type : alloc_type_t)
    (haw : aw1 ≤ aw2) (hah : ah1 ≤ ah2) :
    calc_header_size aw1 ah1 alloc_type ≤ calc_header_size aw2 ah2 alloc_type := by
  unfold calc_header_size
  split
  · exact afbc_buffer_align_mono _
      (Nat.mul_le_mul_right _ (Nat.div_le_div_right (Nat.mul_le_mul haw hah)))
  · exact Nat.le_refl 0

theorem calc_planes_mono (alloc_type : alloc_type_t) (format : format_info_t)
    (has_cpu_usage has_hw_usage : Bool) (planes : List Nat)
    {w1 h1 w2 h2 s1 s2 l1 l2 : Nat}
    (hw : w1 ≤ w2) (hh : h1 ≤ h2) (hs : s1 ≤ s2) (hl : l1 ≤ l2) :
    (calc_planes w1 h1 alloc_type format has_cpu_usage has_hw_usage planes s1 l1).1 ≤
      (calc_planes w2 h2 alloc_type format has_cpu_usage has_hw_usage planes s2 l2).1 := by
  induction planes generalizing s1 s2 l1 l2 with
  | nil => simpa [calc_planes] using hs
  | cons plane rest ih =>
    simp only [calc_planes]
    obtain ⟨hawm, hahm⟩ := get_pixel_w_h_mono format alloc_type plane has_cpu_usage hw hh
    have hbsm := calc_byte_stride_mono alloc_type format has_cpu_usage has_hw_usage plane
      hawm hl
    have hlm : (if plane = 0 then
          calc_byte_stride (get_pixel_w_h w1 h1 format alloc_type plane has_cpu_usage).1
            alloc_type format has_cpu_usage has_hw_usage plane l1
        else l1) ≤
        (if plane = 0 then
          calc_byte_stride (get_pixel_w_h w2 h2 format alloc_type plane has_cpu_usage).1
            alloc_type format has_cpu_usage has_hw_usage plane l2
        else l2) := by
      split
      · exact hbsm
      · exact hl
    exact ih
      (Nat.add_le_add (Nat.add_le_add hs
        (calc_body_size_mono alloc_type format plane hawm hahm hbsm))
        (calc_header_size_mono alloc_type hawm hahm))
      hlm

/-- C2: for every format catalog entry (indeed every format record), every
allocation type and every pair of CPU/HW usage flags, the total size computed
by `calc_allocation_size` is monotone in the requested dimensions: if
`w1 ≤ w2` and `h1 ≤ h2` then the computed total size at `(w1, h1)` is at
most the computed total size at `(w2, h2)`. -/
theorem calc_allocation_size_monotone (alloc_type : alloc_type_t)
    (format : format_info_t) (has_cpu_usage has_hw_usage : Bool)
    {w1 h1 w2 h2 : Nat} (hw : w1 ≤ w2) (hh : h1 ≤ h2) :
    (calc_allocation_size w1 h1 alloc_type format has_cpu_usage has_hw_usage).2.1 ≤
      (calc_allocation_size w2 h2 alloc_type format has_cpu_usage has_hw_usage).2.1 := by
  unfold calc_allocation_size
  exact calc_planes_mono alloc_type format has_cpu_usage has_hw_usage
    (List.range format.npln) hw hh (Nat.le_refl 0) (Nat.le_refl 0)

/-- Witness for C2: the NV12 catalog entry, uncompressed allocation, CPU and
HW usage, dimensions (639, 479) against (1920, 1080). -/
theorem calc_allocation_size_monotone_witness :
    639 ≤ 1920 ∧ 479 ≤ 1080 ∧
    (calc_allocation_size 639 479 ⟨.UNCOMPRESSED, true, false, false, false⟩
        (formatsD 10) true true).2.1 ≤
      (calc_allocation_size 1920 1080 ⟨.UNCOMPRESSED, true, false, false, false⟩
        (formatsD 10) true true).2.1 :=
  ⟨by decide, by decide,
    calc_allocation_size_monotone ⟨.UNCOMPRESSED, true, false, false, false⟩
      (formatsD 10) true true (by decide) (by decide)⟩

/-! ## Buffer allocation pipeline (`mali_gralloc_buffer_allocate`, geometry
stage) -/

/-- `mali_gralloc_adjust_dimensions` (`mali_gralloc_module.h`, non-legacy):
pad video-decoder AFBC YUV420 heights by 16 and align GPU-produced AFBC
dimensions to 16. -/
def mali_gralloc_adjust_dimensions (internal_format usage width height : Nat) :
    Nat × Nat :=
  let producer := (determine_producer usage).2
  let height :=
    if producer = .VIDEO_DECODER ∧
        internal_format &&& MALI_GRALLOC_INTFMT_AFBC_BASIC ≠ 0 ∧
        (internal_format &&& MALI_GRALLOC_INTFMT_FMT_MASK) ∈
          [MALI_GRALLOC_FORMAT_INTERNAL_YUV420_8BIT_I, HAL_PIXEL_FORMAT_YCrCb_420_SP,
           MALI_GRALLOC_FORMAT_INTERNAL_NV12, MALI_GRALLOC_FORMAT_INTERNAL_NV21,
           MALI_GRALLOC_FORMAT_INTERNAL_YV12, MALI_GRALLOC_FORMAT_INTERNAL_YUV420_10BIT_I,
           MALI_GRALLOC_FORMAT_INTERNAL_Y0L2] then
      height + 16
    else height
  if (producer = .GPU ∨ producer = .GPU_OR_DISPLAY) ∧
      internal_format &&& MALI_GRALLOC_INTFMT_AFBC_BASIC ≠ 0 then
    (GRALLOC_ALIGN width 16, GRALLOC_ALIGN height 16)
  else (width, height)

/-- `validate_format` (geometry source file): consistency of the selected
format with the allocation type, plus the BLOB height-1 rule. -/
def validate_format (format : format_info_t) (alloc_type : alloc_type_t)
    (descriptor_height : Nat) : Bool :=
  if alloc_type.is_afbc then
    if format.afbc = false then false
    else if (format.npln = 1 ∧ alloc_type.is_multi_plane = true) ∨
        (1 < format.npln ∧ alloc_type.is_multi_plane = false) then false
    else if format.id = MALI_GRALLOC_FORMAT_INTERNAL_BLOB ∧ descriptor_height ≠ 1 then
      false
    else true
  else
    if format.linear = false then false
    else if format.id = MALI_GRALLOC_FORMAT_INTERNAL_BLOB ∧ descriptor_height ≠ 1 then
      false
    else true

/-- `buffer_descriptor_t` (request fields used by the allocation pipeline). -/
structure buffer_descriptor_t where
  width : Nat
  height : Nat
  hal_format : Nat
  format_type : mali_gralloc_format_type
  producer_usage : Nat
  consumer_usage : Nat
  layer_count : Nat
deriving Repr, DecidableEq

/-- Result of the per-descriptor geometry stage of
`mali_gralloc_buffer_allocate`. -/
structure alloc_result_t where
  internal_format : Nat
  alloc_format : Nat
  pixel_stride : Nat
  size : Nat
  plane_info : List plane_info_t
deriving Repr, DecidableEq

/-- Per-descriptor geometry stage of `mali_gralloc_buffer_allocate` (geometry
source file, non-legacy build): format selection, table lookup, allocation
type, AFBC fallback, validation, dimension adjustment, size calculation and
multi-layer size adjustment.  `.error (-22)` models `return -EINVAL`. -/
def mali_gralloc_buffer_allocate_geometry (caps : runtime_caps_t)
    (bufDescriptor : buffer_descriptor_t) : Except Int alloc_result_t :=
  let usage := bufDescriptor.producer_usage ||| bufDescriptor.consumer_usage
  let internal_format := mali_gralloc_select_format caps bufDescriptor.hal_format
    bufDescriptor.format_type usage (bufDescriptor.width * bufDescriptor.height)
  if internal_format = 0 then .error (-22)
  else
    let format_idx := formats.findIdx
      (fun f => f.id == internal_format &&& MALI_GRALLOC_INTFMT_FMT_MASK)
    if num_formats ≤ format_idx then .error (-22)
    else
      match get_alloc_type internal_format format_idx usage with
      | none => .error (-22)
      | some alloc_type =>
        let fb : Nat × Bool :=
          if alloc_type.primary_type ≠ .UNCOMPRESSED then
            afbc_format_fallback caps format_idx usage (alloc_type.is_multi_plane = false)
          else (format_idx, true)
        if fb.2 = false then .error (-22)
        else
          let format_idx := fb.1
          let alloc_format := (internal_format &&& MALI_GRALLOC_INTFMT_EXT_MASK) |||
            (formatsD format_idx).id
          let alloc_type :=
            if (formatsD format_idx).npln = 1 then
              { alloc_type with is_multi_plane := false }
            else alloc_type
          if validate_format (formatsD format_idx) alloc_type bufDescriptor.height = false then
            .error (-22)
          else
            let wh := mali_gralloc_adjust_dimensions internal_format usage
              bufDescriptor.width bufDescriptor.height
            let r := calc_allocation_size wh.1 wh.2 alloc_type (formatsD format_idx)
              (usage &&& (GRALLOC_USAGE_SW_READ_MASK ||| GRALLOC_USAGE_SW_WRITE_MASK) ≠ 0)
              (cClear usage (GRALLOC_USAGE_PRIVATE_MASK ||| GRALLOC_USAGE_SW_READ_MASK |||
                GRALLOC_USAGE_SW_WRITE_MASK) ≠ 0)
            let size := r.2.1
            let size :=
              if 1 < bufDescriptor.layer_count then
                (if internal_format &&& MALI_GRALLOC_INTFMT_AFBCENABLE_MASK ≠ 0 then
                  (if internal_format &&& MALI_GRALLOC_INTFMT_AFBC_TILED_HEADERS ≠ 0 then
                    GRALLOC_ALIGN size 4096
                  else GRALLOC_ALIGN size 128)
                else size) * bufDescriptor.layer_count
              else size
            .ok ⟨internal_format, alloc_format, r.1, size, r.2.2⟩

/-! ## ION backing-store orchestration (`mali_gralloc_ion.cpp`) -/

/-- ION heap kinds reachable in `pick_ion_heap` on this build (no compound
page or DMA heap configured): the secure heap, the uniphier framebuffer
heap (`ION_HEAP_ID_FB`) and the system heap.  `ION_HEAP_TYPE_INVALID` is
modelled as `none` at the use sites. -/
inductive ion_heap_kind where
  | SECURE
  | FB
  | SYSTEM
deriving Repr, DecidableEq

/-- `ION_FLAG_CACHED | ION_FLAG_CACHED_NEEDS_SYNC` (external `ion.h` values 1
and 2). -/
def ION_FLAG_CACHED_BOTH : Nat := 3

/-- `pick_ion_heap` (`mali_gralloc_ion.cpp`): `none` models
`ION_HEAP_TYPE_INVALID` (protected memory without a secure heap). -/
def pick_ion_heap (secure_heap_exists : Bool) (usage : Nat) : Option ion_heap_kind :=
  if usage &&& GRALLOC_USAGE_PROTECTED ≠ 0 then
    if secure_heap_exists then some .SECURE else none
  else if usage &&& GRALLOC_USAGE_HW_FB ≠ 0 then
    some .FB
  else if usage &&& GRALLOC_USAGE_HW_VIDEO_ENCODER = 0 ∧
      usage &&& (GRALLOC_USAGE_HW_FB ||| GRALLOC_USAGE_HW_COMPOSER) ≠ 0 then
    some .SYSTEM
  else
    some .SYSTEM

/-- ION-flag part of `set_ion_flags` (`mali_gralloc_ion.cpp`, no DMA heap
configured): cached flags for CPU-read-often usage, otherwise the flags
variable is left untouched (`flags_in`). -/
def set_ion_flags (usage flags_in : Nat) : Nat :=
  if usage &&& GRALLOC_USAGE_SW_READ_MASK = GRALLOC_USAGE_SW_READ_OFTEN then
    ION_FLAG_CACHED_BOTH
  else flags_in

/-- Descriptor fields consumed by the ION stage (sizes already computed by the
geometry stage). -/
structure ion_descriptor_t where
  size : Nat
  producer_usage : Nat
  consumer_usage : Nat
deriving Repr, DecidableEq

/-- Loop body of `check_buffers_sharable`: `state` holds the heap type and
ION flags of the first descriptor once seen.  The C reads an uninitialised
local for the flags when no branch of `set_ion_flags` assigns it; the model
passes 0, which is also what every descriptor then computes identically. -/
def check_buffers_sharable_loop (secure_heap_exists : Bool) :
    List ion_descriptor_t → Option (ion_heap_kind × Nat) → Bool
  | [], _ => true
  | d :: rest, state =>
    let usage := d.consumer_usage ||| d.producer_usage
    match pick_ion_heap secure_heap_exists usage with
    | none => false
    | some heap_type =>
      let ion_flags := set_ion_flags usage 0
      match state with
      | some (h0, f0) =>
        if h0 ≠ heap_type ∨ f0 ≠ ion_flags then false
        else check_buffers_sharable_loop secure_heap_exists rest (some (h0, f0))
      | none => check_buffers_sharable_loop secure_heap_exists rest (some (heap_type, ion_flags))

/-- `check_buffers_sharable` (`mali_gralloc_ion.cpp`). -/
def check_buffers_sharable (secure_heap_exists : Bool)
    (descriptors : List ion_descriptor_t) : Bool :=
  if descriptors.length ≤ 1 then false
  else check_buffers_sharable_loop secure_heap_exists descriptors none

/-- `get_max_buffer_descriptor_index` (`mali_gralloc_ion.cpp`): index of the
first descriptor of strictly maximal size (the loop keeps the earliest
maximum since it updates only on `<`). -/
def get_max_buffer_descriptor_index_loop :
    List ion_descriptor_t → Nat → Nat → Nat → Nat
  | [], _, max_buffer_index, _ => max_buffer_index
  | d :: rest, i, max_buffer_index, max_buffer_size =>
    if max_buffer_size < d.size then
      get_max_buffer_descriptor_index_loop rest (i + 1) i d.size
    else
      get_max_buffer_descriptor_index_loop rest (i + 1) max_buffer_index max_buffer_size

/-- `get_max_buffer_descriptor_index` entry point. -/
def get_max_buffer_descriptor_index (descriptors : List ion_descriptor_t) : Nat :=
  get_max_buffer_descriptor_index_loop descriptors 0 0 0

/-- Modelled from the spec: the external memory arena (`ion_alloc_fd` behind
`alloc_from_ion_heap`).  The arena is an allocation log (list of requested
sizes); a request appends its size and returns the new allocation's index as
the file handle.  The arena itself is assumed to satisfy every well-formed
request; `alloc_from_ion_heap`'s own guard rejects a zero size before any
request reaches the arena, so the failure paths of interest remain.  The
returned minimum page size is `SZ_4K` for the heaps reachable here. -/
def alloc_from_ion_heap (size : Nat) (heap_type : ion_heap_kind) (log : List Nat) :
    Option (Nat × Nat × List Nat) :=
  if size = 0 then none
  else
    let _unused := heap_type
    some (log.length, 0x1000, log ++ [size])

/-- Handle fields populated by `mali_gralloc_ion_allocate` that matter to the
sharing claim: which arena allocation the (possibly duplicated) file handle
refers to, the per-descriptor size, the recorded backing-store size and the
minimum page size. -/
structure ion_handle_t where
  share_fd_alloc : Nat
  size : Nat
  backing_store_size : Nat
  min_pgsz : Nat
deriving Repr, DecidableEq

/-- Non-shared path of `mali_gralloc_ion_allocate`: one arena allocation per
descriptor; each handle records its own size as backing-store size. -/
def mali_gralloc_ion_allocate_separate (secure_heap_exists : Bool) :
    List ion_descriptor_t → List Nat → Option (List ion_handle_t × List Nat)
  | [], log => some ([], log)
  | d :: rest, log =>
    let usage := d.consumer_usage ||| d.producer_usage
    match pick_ion_heap secure_heap_exists usage with
    | none => none
    | some heap_type =>
      match alloc_from_ion_heap d.size heap_type log with
      | none => none
      | some (fd, min_pgsz, log) =>
        match mali_gralloc_ion_allocate_separate secure_heap_exists rest log with
        | none => none
        | some (hnds, log) =>
          some (⟨fd, d.size, d.size, min_pgsz⟩ :: hnds, log)

/-- `mali_gralloc_ion_allocate` (`mali_gralloc_ion.cpp`).  Returns the
handles, the arena allocation log and the shared-backend flag; `none` models
the `-1` failure return (after which the caller sees no handles).  In the
shared path one allocation of the maximal descriptor's size is made and every
handle's file descriptor is `dup`licated from it (modelled as referring to
the same allocation index), with `max_bufDescriptor->size` recorded as each
handle's backing-store size. -/
def mali_gralloc_ion_allocate (secure_heap_exists : Bool)
    (descriptors : List ion_descriptor_t) :
    Option (List ion_handle_t × List Nat × Bool) :=
  let shared_backend := check_buffers_sharable secure_heap_exists descriptors
  if shared_backend then
    let max_buffer_index := get_max_buffer_descriptor_index descriptors
    let max_bufDescriptor := descriptors.getD max_buffer_index ⟨0, 0, 0⟩
    let usage := max_bufDescriptor.consumer_usage ||| max_bufDescriptor.producer_usage
    match pick_ion_heap secure_heap_exists usage with
    | none => none
    | some heap_type =>
      match alloc_from_ion_heap max_bufDescriptor.size heap_type [] with
      | none => none
      | some (shared_fd, min_pgsz, log) =>
        some (descriptors.map (fun d =>
          ⟨shared_fd, d.size, max_bufDescriptor.size, min_pgsz⟩), log, true)
  else
    match mali_gralloc_ion_allocate_separate secure_heap_exists descriptors [] with
    | none => none
    | some (hnds, log) => some (hnds, log, false)

/-! ## Claim C6: the shared backing-store path -/

theorem drop_cons_getD (full : List ion_descriptor_t) (i : Nat) (d : ion_descriptor_t)
    (rest : List ion_descriptor_t) (h : full.drop i = d :: rest) :
    full.getD i ⟨0, 0, 0⟩ = d ∧ full.drop (i + 1) = rest := by
  induction full generalizing i with
  | nil => rw [List.drop_nil] at h; cases h
  | cons a l ih =>
    cases i with
    | zero =>
      rw [List.drop_zero] at h
      injection h with h1 h2
      subst h1; subst h2
      exact ⟨rfl, rfl⟩
    | succ m =>
      rw [List.drop_succ_cons] at h
      obtain ⟨h1, h2⟩ := ih m h
      rw [List.drop_succ_cons]
      exact ⟨by rw [List.getD_cons_succ]; exact h1, h2⟩

theorem getD_mem_of_lt (l : List ion_descriptor_t) (n : Nat) (h : n < l.length) :
    l.getD n ⟨0, 0, 0⟩ ∈ l := by
  induction l generalizing n with
  | nil => cases h
  | cons d rest ih =>
    cases n with
    | zero => exact List.mem_cons_self _ _
    | succ m =>
      rw [List.getD_cons_succ]
      exact List.mem_cons_of_mem _ (ih m (Nat.lt_of_succ_lt_succ h))

theorem get_max_loop_le (l : List ion_descriptor_t) :
    ∀ (full : List ion_descriptor_t) (i mbi mbs : Nat),
    full.drop i = l →
    (mbs = 0 ∨ (full.getD mbi ⟨0, 0, 0⟩).size = mbs) →
    mbs ≤ (full.getD (get_max_buffer_descriptor_index_loop l i mbi mbs) ⟨0, 0, 0⟩).size ∧
    ∀ d ∈ l,
      d.size ≤ (full.getD (get_max_buffer_descriptor_index_loop l i mbi mbs) ⟨0, 0, 0⟩).size := by
  induction l with
  | nil =>
    intro full i mbi mbs _ h2
    simp only [get_max_buffer_descriptor_index_loop]
    refine ⟨?_, by intro d hd; cases hd⟩
    rcases h2 with h | h
    · omega
    · omega
  | cons d rest ih =>
    intro full i mbi mbs h1 h2
    obtain ⟨hget, hdrop⟩ := drop_cons_getD full i d rest h1
    simp only [get_max_buffer_descriptor_index_loop]
    split
    · rename_i hlt
      obtain ⟨ha, hb⟩ := ih full (i + 1) i d.size hdrop (Or.inr (by rw [hget]))
      refine ⟨Nat.le_trans (Nat.le_of_lt hlt) ha, ?_⟩
      intro e he
      rcases List.mem_cons.mp he with rfl | hm
      · exact ha
      · exact hb e hm
    · rename_i hnlt
      obtain ⟨ha, hb⟩ := ih full (i + 1) mbi mbs hdrop h2
      refine ⟨ha, ?_⟩
      intro e he
      rcases List.mem_cons.mp he with rfl | hm
      · exact Nat.le_trans (Nat.le_of_not_lt hnlt) ha
      · exact hb e hm

theorem get_max_loop_lt (l : List ion_descriptor_t) :
    ∀ (i mbi mbs n : Nat), mbi < n → i + l.length ≤ n →
    get_max_buffer_descriptor_index_loop l i mbi mbs < n := by
  induction l with
  | nil => intro i mbi mbs n h _; exact h
  | cons d rest ih =>
    intro i mbi mbs n h hil
    rw [List.length_cons] at hil
    simp only [get_max_buffer_descriptor_index_loop]
    split
    · exact ih (i + 1) i d.size n (by omega) (by omega)
    · exact ih (i + 1) mbi mbs n h (by omega)

theorem check_buffers_sharable_loop_pick (secure : Bool) (l : List ion_descriptor_t) :
    ∀ st, check_buffers_sharable_loop secure l st = true →
    ∀ d ∈ l, (pick_ion_heap secure (d.consumer_usage ||| d.producer_usage)).isSome = true := by
  induction l with
  | nil => intro st _ d hd; cases hd
  | cons d rest ih =>
    intro st h e he
    simp only [check_buffers_sharable_loop] at h
    split at h
    · exact absurd h (by simp)
    · rename_i heap hp
      cases he with
      | head =>
        rw [hp]; rfl
      | tail _ hr =>
        split at h
        · split at h
          · exact absurd h (by simp)
          · exact ih _ h e hr
        · exact ih _ h e hr

/-- **C6.** For a batch judged shareable by `check_buffers_sharable` whose
largest descriptor has non-zero size, `mali_gralloc_ion_allocate` makes
exactly one backing allocation, sized to the largest descriptor (every
descriptor's size is bounded by it), and every returned handle refers to
that single allocation and records its size as the backing-store size. -/
theorem mali_gralloc_ion_allocate_shared_single_arena
    (secure : Bool) (descs : List ion_descriptor_t)
    (hsh : check_buffers_sharable secure descs = true)
    (hpos : 0 < (descs.getD (get_max_buffer_descriptor_index descs) ⟨0, 0, 0⟩).size) :
    (∀ d ∈ descs,
      d.size ≤ (descs.getD (get_max_buffer_descriptor_index descs) ⟨0, 0, 0⟩).size) ∧
    mali_gralloc_ion_allocate secure descs = some
      (descs.map fun d => ⟨0, d.size,
        (descs.getD (get_max_buffer_descriptor_index descs) ⟨0, 0, 0⟩).size, 0x1000⟩,
       [(descs.getD (get_max_buffer_descriptor_index descs) ⟨0, 0, 0⟩).size], true) := by
  have hlen : ¬ descs.length ≤ 1 := by
    intro hc
    have h := hsh
    unfold check_buffers_sharable at h
    rw [if_pos hc] at h
    exact Bool.noConfusion h
  have hloop : check_buffers_sharable_loop secure descs none = true := by
    have h := hsh
    unfold check_buffers_sharable at h
    rwa [if_neg hlen] at h
  have hle := get_max_loop_le descs descs 0 0 0 rfl (Or.inl rfl)
  have hidx : get_max_buffer_descriptor_index descs < descs.length := by
    unfold get_max_buffer_descriptor_index
    exact get_max_loop_lt descs 0 0 0 descs.length (by omega) (by omega)
  have hmem : descs.getD (get_max_buffer_descriptor_index descs) ⟨0, 0, 0⟩ ∈ descs :=
    getD_mem_of_lt descs _ hidx
  have hpick := check_buffers_sharable_loop_pick secure descs none hloop _ hmem
  obtain ⟨heap, hheap⟩ := Option.isSome_iff_exists.mp hpick
  refine ⟨fun d hd => hle.2 d hd, ?_⟩
  have halloc : alloc_from_ion_heap
      (descs.getD (get_max_buffer_descriptor_index descs) ⟨0, 0, 0⟩).size heap [] =
      some (0, 0x1000,
        [(descs.getD (get_max_buffer_descriptor_index descs) ⟨0, 0, 0⟩).size]) := by
    simp only [alloc_from_ion_heap]
    rw [if_neg (Nat.pos_iff_ne_zero.mp hpos)]
    rfl
  simp only [mali_gralloc_ion_allocate, hsh, reduceIte, hheap, halloc]

/-- Concrete two-descriptor batch exercising the shared ION path. -/
def shared_batch : List ion_descriptor_t := [⟨0x1000, 0, 0⟩, ⟨0x2000, 0, 0⟩]

theorem mali_gralloc_ion_allocate_shared_single_arena_witness :
    check_buffers_sharable false shared_batch = true ∧
    0 < (shared_batch.getD (get_max_buffer_descriptor_index shared_batch) ⟨0, 0, 0⟩).size ∧
    ((∀ d ∈ shared_batch,
        d.size ≤ (shared_batch.getD
          (get_max_buffer_descriptor_index shared_batch) ⟨0, 0, 0⟩).size) ∧
      mali_gralloc_ion_allocate false shared_batch = some
        (shared_batch.map fun d => ⟨0, d.size,
          (shared_batch.getD (get_max_buffer_descriptor_index shared_batch) ⟨0, 0, 0⟩).size,
          0x1000⟩,
         [(shared_batch.getD (get_max_buffer_descriptor_index shared_batch) ⟨0, 0, 0⟩).size],
         true)) :=
  ⟨by decide, by decide,
    mali_gralloc_ion_allocate_shared_single_arena false shared_batch (by decide) (by decide)⟩

/-! ## Claim C7: geometry-stage behaviour on degenerate dimensions -/

/-- **C7.** The geometry stage of `mali_gralloc_buffer_allocate` accepts a
descriptor with width 0 (RGBA_8888, no usage): it returns success with a
computed total size of 0 rather than an invalid-parameters error; the
failure surfaces only in the ION stage, whose zero-size guard makes the
whole allocation fail with the generic error after requesting no memory. -/
theorem buffer_allocate_geometry_accepts_zero_width :
    mali_gralloc_buffer_allocate_geometry ⟨0, 0, 0, 0⟩
      ⟨0, 16, MALI_GRALLOC_FORMAT_INTERNAL_RGBA_8888, .USAGE, 0, 0, 1⟩ =
      .ok ⟨MALI_GRALLOC_FORMAT_INTERNAL_RGBA_8888, MALI_GRALLOC_FORMAT_INTERNAL_RGBA_8888,
        0, 0, [⟨0, 0, 0, 16⟩]⟩ ∧
    mali_gralloc_ion_allocate true [⟨0, 0, 0⟩] = none :=
  ⟨rfl, rfl⟩

/-! ## CPU access (`mali_gralloc_bufferaccess.cpp`, gralloc1 non-legacy
build) -/

/-- `GRALLOC1_ERROR_NONE` (gralloc1 API). -/
def GRALLOC1_ERROR_NONE : Int := 0

/-- Modelled from the spec: `GRALLOC1_ERROR_UNSUPPORTED` (gralloc1 API error
code 7, `hardware/gralloc1.h` is not among the shipped sources). -/
def GRALLOC1_ERROR_UNSUPPORTED : Int := 7

/-- `private_handle_t::PRIV_FLAGS_USES_ION` (`mali_gralloc_buffer.h`). -/
def PRIV_FLAGS_USES_ION : Nat := 0x00000004

/-- `private_handle_t` (`mali_gralloc_buffer.h`), restricted to the fields the
CPU-access paths read.  `base` is the mapped CPU address (`none` = `NULL`). -/
structure private_handle_t where
  magic : Nat
  width : Int
  height : Int
  allocating_pid : Int
  remote_pid : Int
  base : Option Nat
  alloc_format : Nat
  req_format : Nat
  producer_usage : Nat
  consumer_usage : Nat
  flags : Nat
  plane_info : List plane_info_t
deriving Repr, DecidableEq

/-- `private_handle_t::validate` (`mali_gralloc_buffer.h`): of the four
checked fields only the magic is carried by the model (version, numInts and
numFds are native-handle plumbing fixed by construction). -/
def private_handle_t.validate (hnd : private_handle_t) : Int :=
  if hnd.magic ≠ 0x3141592 then -22 else 0

/-- `validate_lock_input_parameters` (`mali_gralloc_bufferaccess.cpp`,
gralloc1 build): region checks, registered-process/base checks, then the
AFBC rejection (`GRALLOC1_ERROR_UNSUPPORTED`); the final usage-compatibility
check is compiled out under `GRALLOC_USE_GRALLOC1_API == 1`. -/
def validate_lock_input_parameters (hnd : private_handle_t) (lock_pid : Int)
    (l t w h : Int) (usage : Nat) : Int :=
  let _unused := usage
  if l < 0 ∨ t < 0 ∨ w < 0 ∨ h < 0 then -22
  else if l + w < 0 ∨ t + h < 0 then -22
  else if t + h > hnd.height ∨ l + w > hnd.width then -22
  else if ¬(hnd.allocating_pid = lock_pid ∨ hnd.remote_pid = lock_pid) ∨
      hnd.base = none then -22
  else if hnd.alloc_format &&& MALI_GRALLOC_INTFMT_EXT_MASK ≠ 0 then
    GRALLOC1_ERROR_UNSUPPORTED
  else 0

/-- `mali_gralloc_lock` (gralloc1 non-legacy build).  Returns the status, the
`writeOwner` store (if performed) and the `*vaddr` store (if performed);
`vaddr_supplied = false` models a `NULL` output pointer. -/
def mali_gralloc_lock (hnd : private_handle_t) (lock_pid : Int) (usage : Nat)
    (l t w h : Int) (vaddr_supplied : Bool) :
    Int × Option Nat × Option (Option Nat) :=
  if private_handle_t.validate hnd < 0 then (-22, none, none)
  else
    let status := validate_lock_input_parameters hnd lock_pid l t w h usage
    if status ≠ 0 then (status, none, none)
    else if hnd.req_format = HAL_PIXEL_FORMAT_YCbCr_420_888 ∨
        hnd.req_format = HAL_PIXEL_FORMAT_YCbCr_422_888 ∨
        hnd.req_format = HAL_PIXEL_FORMAT_YCbCr_444_888 then (-22, none, none)
    else
      let format_idx := get_format_index (hnd.alloc_format &&& MALI_GRALLOC_INTFMT_FMT_MASK)
      if format_idx = -1 then (-22, none, none)
      else
        let writeOwner : Option Nat :=
          if hnd.flags &&& PRIV_FLAGS_USES_ION ≠ 0 then
            some (usage &&& GRALLOC_USAGE_SW_WRITE_MASK)
          else none
        if usage &&& (GRALLOC_USAGE_SW_READ_MASK ||| GRALLOC_USAGE_SW_WRITE_MASK) ≠ 0 then
          if vaddr_supplied = false then (-22, some 0, none)
          else (0, writeOwner, some hnd.base)
        else (0, writeOwner, none)

/-- `android_ycbcr` output layout (addresses as offsets into the mapping). -/
structure android_ycbcr where
  y : Option Nat
  cb : Option Nat
  cr : Option Nat
  ystride : Nat
  cstride : Nat
  chroma_step : Nat
deriving Repr, DecidableEq

/-- `mali_gralloc_lock_ycbcr` (gralloc1 non-legacy build). -/
def mali_gralloc_lock_ycbcr (hnd : private_handle_t) (lock_pid : Int)
    (usage : Nat) (l t w h : Int) (ycbcr_supplied : Bool) :
    Int × Option Nat × Option android_ycbcr :=
  if private_handle_t.validate hnd < 0 then (-22, none, none)
  else
    let base_format := hnd.alloc_format &&& MALI_GRALLOC_INTFMT_FMT_MASK
    let status := validate_lock_input_parameters hnd lock_pid l t w h usage
    if status ≠ 0 then (status, none, none)
    else
      let format_idx := get_format_index base_format
      if format_idx = -1 then (-22, none, none)
      else if (formatsD format_idx.toNat).is_yuv ≠ true then (-22, none, none)
      else
        let writeOwner : Option Nat :=
          if hnd.flags &&& PRIV_FLAGS_USES_ION ≠ 0 then
            some (usage &&& GRALLOC_USAGE_SW_WRITE_MASK)
          else none
        if usage &&& (GRALLOC_USAGE_SW_READ_MASK ||| GRALLOC_USAGE_SW_WRITE_MASK) ≠ 0 then
          if ycbcr_supplied = false then (-22, writeOwner, none)
          else
            let baseAddr := hnd.base.getD 0
            let ystride := (hnd.plane_info.getD 0 ⟨0, 0, 0, 0⟩).byte_stride
            let cstride := (hnd.plane_info.getD 1 ⟨0, 0, 0, 0⟩).byte_stride
            let off1 := (hnd.plane_info.getD 1 ⟨0, 0, 0, 0⟩).offset
            let off2 := (hnd.plane_info.getD 2 ⟨0, 0, 0, 0⟩).offset
            if base_format = MALI_GRALLOC_FORMAT_INTERNAL_Y8 ∨
                base_format = MALI_GRALLOC_FORMAT_INTERNAL_Y16 then
              (0, writeOwner, some ⟨some baseAddr, none, none, ystride, 0, 0⟩)
            else if base_format = MALI_GRALLOC_FORMAT_INTERNAL_NV12 then
              (0, writeOwner, some ⟨some baseAddr, some (baseAddr + off1),
                some (baseAddr + off1 + 1), ystride, cstride, 2⟩)
            else if base_format = HAL_PIXEL_FORMAT_YCrCb_420_SP ∨
                base_format = MALI_GRALLOC_FORMAT_INTERNAL_NV21 then
              (0, writeOwner, some ⟨some baseAddr, some (baseAddr + off1 + 1),
                some (baseAddr + off1), ystride, cstride, 2⟩)
            else if base_format = MALI_GRALLOC_FORMAT_INTERNAL_YV12 then
              (0, writeOwner, some ⟨some baseAddr, some (baseAddr + off2),
                some (baseAddr + off1), ystride, cstride, 1⟩)
            else (-22, writeOwner, none)
        else
          (0, writeOwner, some ⟨none, none, none, 0, 0, 0⟩)

/-- `mali_gralloc_get_num_flex_planes` (gralloc1 non-legacy build): the AFBC
extension-mask check precedes the table lookup. -/
def mali_gralloc_get_num_flex_planes (hnd : private_handle_t) : Int × Option Nat :=
  let base_format := hnd.alloc_format &&& MALI_GRALLOC_INTFMT_FMT_MASK
  if hnd.alloc_format &&& MALI_GRALLOC_INTFMT_EXT_MASK ≠ 0 then
    (GRALLOC1_ERROR_UNSUPPORTED, none)
  else
    let format_idx := get_format_index base_format
    if format_idx = -1 then (-22, none)
    else if (formatsD format_idx.toNat).flex ≠ true then (GRALLOC1_ERROR_UNSUPPORTED, none)
    else (GRALLOC1_ERROR_NONE, some (formatsD format_idx.toNat).ncmp)

/-- Base formats enumerated by the flex-layout switch of
`mali_gralloc_lock_flex_async` (SDK ≥ 26 build, so `RGBA_16161616` is
included); every other format hits the `default` unsupported branch. -/
def flex_layout_base_formats : List Nat :=
  [MALI_GRALLOC_FORMAT_INTERNAL_Y8, MALI_GRALLOC_FORMAT_INTERNAL_Y16,
   MALI_GRALLOC_FORMAT_INTERNAL_NV12, HAL_PIXEL_FORMAT_YCrCb_420_SP,
   MALI_GRALLOC_FORMAT_INTERNAL_NV21, MALI_GRALLOC_FORMAT_INTERNAL_YV12,
   MALI_GRALLOC_FORMAT_INTERNAL_P010, MALI_GRALLOC_FORMAT_INTERNAL_P210,
   HAL_PIXEL_FORMAT_YCbCr_422_I, HAL_PIXEL_FORMAT_YCbCr_422_SP,
   MALI_GRALLOC_FORMAT_INTERNAL_Y210, MALI_GRALLOC_FORMAT_INTERNAL_RGBA_16161616,
   MALI_GRALLOC_FORMAT_INTERNAL_RGBA_8888, MALI_GRALLOC_FORMAT_INTERNAL_RGBX_8888,
   MALI_GRALLOC_FORMAT_INTERNAL_RGB_888, MALI_GRALLOC_FORMAT_INTERNAL_BGRA_8888]

/-- `mali_gralloc_lock_flex_async` (gralloc1 non-legacy build), after the
fence wait.  Returns the status, the `writeOwner` store and the
`flex_layout->num_planes` store (the plane parameters themselves are filled
per format and elided; the `default` switch branch returns unsupported after
`num_planes` has already been written). -/
def mali_gralloc_lock_flex_async (hnd : private_handle_t) (lock_pid : Int)
    (usage : Nat) (l t w h : Int) : Int × Option Nat × Option Nat :=
  let base_format := hnd.alloc_format &&& MALI_GRALLOC_INTFMT_FMT_MASK
  let status := validate_lock_input_parameters hnd lock_pid l t w h usage
  if status ≠ 0 then (status, none, none)
  else
    let writeOwner : Option Nat :=
      if hnd.flags &&& PRIV_FLAGS_USES_ION ≠ 0 then
        some (usage &&& GRALLOC_USAGE_SW_WRITE_MASK)
      else none
    let format_idx := get_format_index base_format
    if format_idx = -1 then (-22, writeOwner, none)
    else if (formatsD format_idx.toNat).flex ≠ true then
      (GRALLOC1_ERROR_UNSUPPORTED, writeOwner, none)
    else
      let num_planes := (formatsD format_idx.toNat).ncmp
      if base_format ∈ flex_layout_base_formats then
        (GRALLOC1_ERROR_NONE, writeOwner, some num_planes)
      else (GRALLOC1_ERROR_UNSUPPORTED, writeOwner, some num_planes)

/-! ## Claim C10: AFBC buffers are rejected by every CPU-access entry point -/

theorem validate_lock_afbc (hnd : private_handle_t) (lock_pid : Int)
    (hext : hnd.alloc_format &&& MALI_GRALLOC_INTFMT_EXT_MASK ≠ 0)
    (l t w h : Int) (usage : Nat) :
    validate_lock_input_parameters hnd lock_pid l t w h usage = -22 ∨
    validate_lock_input_parameters hnd lock_pid l t w h usage =
      GRALLOC1_ERROR_UNSUPPORTED := by
  simp only [validate_lock_input_parameters]
  repeat' split
  all_goals first
    | exact Or.inl rfl
    | exact Or.inr rfl

/-- **C10.** For every buffer handle whose allocated internal format has any
AFBC modifier bit set (non-zero extension mask), each of `mali_gralloc_lock`,
`mali_gralloc_lock_ycbcr` and `mali_gralloc_lock_flex_async` returns a
non-zero (error) status and performs neither the `writeOwner` update nor any
output store (no CPU pointer, ycbcr layout or plane count reaches the
caller), and `mali_gralloc_get_num_flex_planes` reports the buffer as
unsupported. -/
theorem cpu_access_rejects_afbc (hnd : private_handle_t) (lock_pid : Int)
    (usage : Nat) (l t w h : Int) (vaddr_supplied ycbcr_supplied : Bool)
    (hext : hnd.alloc_format &&& MALI_GRALLOC_INTFMT_EXT_MASK ≠ 0) :
    ((mali_gralloc_lock hnd lock_pid usage l t w h vaddr_supplied).1 ≠ 0 ∧
      (mali_gralloc_lock hnd lock_pid usage l t w h vaddr_supplied).2 = (none, none)) ∧
    ((mali_gralloc_lock_ycbcr hnd lock_pid usage l t w h ycbcr_supplied).1 ≠ 0 ∧
      (mali_gralloc_lock_ycbcr hnd lock_pid usage l t w h ycbcr_supplied).2 = (none, none)) ∧
    ((mali_gralloc_lock_flex_async hnd lock_pid usage l t w h).1 ≠ 0 ∧
      (mali_gralloc_lock_flex_async hnd lock_pid usage l t w h).2 = (none, none)) ∧
    mali_gralloc_get_num_flex_planes hnd = (GRALLOC1_ERROR_UNSUPPORTED, none) := by
  have hv := validate_lock_afbc hnd lock_pid hext l t w h usage
  refine ⟨?_, ?_, ?_, ?_⟩
  · simp only [mali_gralloc_lock]
    by_cases hval : private_handle_t.validate hnd < 0
    · rw [if_pos hval]
      exact ⟨by decide, rfl⟩
    · rw [if_neg hval]
      rcases hv with hveq | hveq <;> rw [hveq]
      · rw [if_pos (by decide : (-22 : Int) ≠ 0)]
        exact ⟨by decide, rfl⟩
      · rw [if_pos (by decide : GRALLOC1_ERROR_UNSUPPORTED ≠ 0)]
        exact ⟨by decide, rfl⟩
  · simp only [mali_gralloc_lock_ycbcr]
    by_cases hval : private_handle_t.validate hnd < 0
    · rw [if_pos hval]
      exact ⟨by decide, rfl⟩
    · rw [if_neg hval]
      rcases hv with hveq | hveq <;> rw [hveq]
      · rw [if_pos (by decide : (-22 : Int) ≠ 0)]
        exact ⟨by decide, rfl⟩
      · rw [if_pos (by decide : GRALLOC1_ERROR_UNSUPPORTED ≠ 0)]
        exact ⟨by decide, rfl⟩
  · simp only [mali_gralloc_lock_flex_async]
    rcases hv with hveq | hveq <;> rw [hveq]
    · rw [if_pos (by decide : (-22 : Int) ≠ 0)]
      exact ⟨by decide, rfl⟩
    · rw [if_pos (by decide : GRALLOC1_ERROR_UNSUPPORTED ≠ 0)]
      exact ⟨by decide, rfl⟩
  · simp only [mali_gralloc_get_num_flex_planes]
    rw [if_pos hext]

/-- Handle with AFBC basic enabled on NV12, as produced by an AFBC
allocation. -/
def afbc_locked_handle : private_handle_t :=
  ⟨0x3141592, 64, 64, 1, 1, some 0x7000,
   MALI_GRALLOC_FORMAT_INTERNAL_NV12 ||| MALI_GRALLOC_INTFMT_AFBC_BASIC,
   MALI_GRALLOC_FORMAT_INTERNAL_NV12, 6, 0, 4, [⟨0, 64, 64, 64⟩]⟩

theorem cpu_access_rejects_afbc_witness :
    afbc_locked_handle.alloc_format &&& MALI_GRALLOC_INTFMT_EXT_MASK ≠ 0 ∧
    (((mali_gralloc_lock afbc_locked_handle 1 6 0 0 1 1 true).1 ≠ 0 ∧
       (mali_gralloc_lock afbc_locked_handle 1 6 0 0 1 1 true).2 = (none, none)) ∧
     ((mali_gralloc_lock_ycbcr afbc_locked_handle 1 6 0 0 1 1 true).1 ≠ 0 ∧
       (mali_gralloc_lock_ycbcr afbc_locked_handle 1 6 0 0 1 1 true).2 = (none, none)) ∧
     ((mali_gralloc_lock_flex_async afbc_locked_handle 1 6 0 0 1 1).1 ≠ 0 ∧
       (mali_gralloc_lock_flex_async afbc_locked_handle 1 6 0 0 1 1).2 = (none, none)) ∧
     mali_gralloc_get_num_flex_planes afbc_locked_handle =
       (GRALLOC1_ERROR_UNSUPPORTED, none)) :=
  ⟨by decide, cpu_access_rejects_afbc afbc_locked_handle 1 6 0 0 1 1 true true (by decide)⟩

end MaliGralloc
